import Mathlib

/-!
# Verification of the testsite client-side loader (`assets/js/site-loader.js`)

This development gives a shallow embedding of the data-loading and
page-dispatch core of the portfolio site's loader script and proves /
refutes the specification claims about it.

Modelling conventions:
* JavaScript values that flow through the loader are modelled by `JValue`,
  a JSON-like value type extended with `undef` (JavaScript's `undefined`).
* Property access `v.k` is modelled by `jsGetE`, which throws (returns
  `Except.error`) exactly when the receiver is `undefined`/`null`, and
  otherwise yields the field value or `undef` — matching JavaScript
  TypeError semantics.
* The global `SITE_DATA` object is modelled as an association list
  `Store := List (String × JValue)` (JS object keys are unique; insertion
  order of the model is the canonical `JSON_FILES` order, while the real
  completion order of the concurrent fetches is scheduling-dependent; no
  claim depends on key order).
* The DOM is modelled as a finite collection of content slots
  (`Dom := Slot → Option String`): `none` means the queried element is
  absent from the page markup, `some c` means present with content `c`.
  `innerHTML`/`textContent`/attribute writes replace the slot's content and
  never change which elements are present (all writes in the source are
  whole-slot replacements; every `innerHTML +=` loop in the source is
  preceded by clearing the same container in the same call).
* Each rendering function is compiled — given its data arguments — into a
  small DOM-effect program `RProg` (presence-guarded writes, unguarded
  writes that throw on an absent element, and data-driven throws), which
  mirrors the source's control flow.  Template strings are built from the
  same data fields the source interpolates; long literal markup is
  abbreviated since no claim depends on the literal HTML text.
-/

namespace Testsite

/-- JSON-like JavaScript values, including `undefined`. -/
inductive JValue where
  | undef : JValue
  | null : JValue
  | bool (b : Bool) : JValue
  | num (n : Int) : JValue
  | str (s : String) : JValue
  | arr (elems : List JValue) : JValue
  | obj (fields : List (String × JValue)) : JValue
deriving Inhabited

/-- JavaScript truthiness: `undefined`, `null`, `false`, `0`, `""` are falsy. -/
def truthy : JValue → Bool
  | .undef => false
  | .null => false
  | .bool b => b
  | .num n => n != 0
  | .str s => s ≠ ""
  | .arr _ => true
  | .obj _ => true

/-- Field lookup inside an object's field list (first binding wins,
as in a JS object literal read). -/
def fieldLookup (k : String) : List (String × JValue) → Option JValue
  | [] => none
  | (k', v) :: rest => if k' = k then some v else fieldLookup k rest

/-- JavaScript property access `v[k]`: throws a TypeError when the receiver
is `undefined` or `null`; yields `undefined` for a missing field or for a
field access on a primitive; otherwise the field's value. -/
def jsGetE : JValue → String → Except Unit JValue
  | .undef, _ => .error ()
  | .null, _ => .error ()
  | .obj fields, k => .ok ((fieldLookup k fields).getD .undef)
  | _, _ => .ok (.undef)

/-- Non-throwing variant used where the receiver is known to be an object. -/
def getField (v : JValue) (k : String) : JValue :=
  (jsGetE v k).toOption.getD (.undef)

/-- JavaScript string coercion (template-literal interpolation `${v}`). -/
def jsToString : JValue → String
  | .undef => "undefined"
  | .null => "null"
  | .bool b => if b then "true" else "false"
  | .num n => toString n
  | .str s => s
  | .arr elems => String.intercalate "," (elems.map fun e =>
      match e with
      | .undef => ""
      | .null => ""
      | .bool b => if b then "true" else "false"
      | .num n => toString n
      | .str s => s
      | .arr _ => "..."
      | .obj _ => "[object Object]")
  | .obj _ => "[object Object]"

/-- `Array.isArray(v)`. -/
def isArray : JValue → Bool
  | .arr _ => true
  | _ => false

/-- The loader's local helper
`ArrayOfObjects = (arr) => Array.isArray(arr) && arr.every(item => typeof item === 'object' && item !== null)`
(`typeof` is `'object'` for objects and arrays; `null` is excluded explicitly). -/
def arrayOfObjects : JValue → Bool
  | .arr elems => elems.all fun e =>
      match e with
      | .obj _ => true
      | .arr _ => true
      | _ => false
  | _ => false

/-- The loader's local helper
`ArrayOfStrings = (arr) => Array.isArray(arr) && arr.every(item => typeof item === 'string')`. -/
def arrayOfStrings : JValue → Bool
  | .arr elems => elems.all fun e =>
      match e with
      | .str _ => true
      | _ => false
  | _ => false

/-- `v.length > 0` evaluated on a value already known to be truthy:
defined for arrays and strings; `undefined > 0` is `false` for every other
receiver. -/
def jsLengthPos : JValue → Bool
  | .arr elems => !elems.isEmpty
  | .str s => !s.toList.isEmpty
  | _ => false

/-- JavaScript strict string-equality test `v === lit`. -/
def jsStrEq (v : JValue) (lit : String) : Bool :=
  match v with
  | .str s => s = lit
  | _ => false

/-- Fuel-indexed splitter over character lists (the fuel makes it
structurally recursive, so concrete runs reduce inside the kernel; a fuel
of `length + 1` always suffices for a non-empty separator). -/
def splitFuel (sep : List Char) : Nat → List Char → List Char → List (List Char)
  | 0, cs, acc => [acc.reverse ++ cs]
  | _ + 1, [], acc => [acc.reverse]
  | fuel + 1, c :: rest, acc =>
      if sep.isPrefixOf (c :: rest)
      then acc.reverse :: splitFuel sep fuel ((c :: rest).drop sep.length) []
      else splitFuel sep fuel rest (c :: acc)

/-- `s.split(sep)` for a plain non-regex separator (an empty separator
does not occur in the loader). -/
def jsSplit (s sep : String) : List String :=
  if sep.toList.isEmpty then [s]
  else (splitFuel sep.toList (s.toList.length + 1) s.toList []).map String.mk

/-- `s.startsWith(pre)`. -/
def strStartsWith (s pre : String) : Bool :=
  pre.toList.isPrefixOf s.toList

/-- `s.trim()`. -/
def strTrim (s : String) : String :=
  String.mk (((s.toList.dropWhile Char.isWhitespace).reverse.dropWhile Char.isWhitespace).reverse)

/-- `s.toUpperCase()` (over the ASCII data the loader handles). -/
def strToUpper (s : String) : String :=
  String.mk (s.toList.map Char.toUpper)

/-- Set (or create) field `k` of an object value, as a JS assignment
`v[k] = x` does; on a non-object receiver the model leaves it unchanged
(the dispatcher only assigns into menu-item objects). -/
def setField (v : JValue) (k : String) (x : JValue) : JValue :=
  match v with
  | .obj fields =>
      .obj (if (fieldLookup k fields).isSome
            then fields.map fun kv => if kv.1 = k then (k, x) else kv
            else fields ++ [(k, x)])
  | _ => v

/-- JavaScript `String.prototype.replace` with a plain-string pattern
replaces only the first occurrence. -/
def replaceFirst (s pat repl : String) : String :=
  match jsSplit s pat with
  | [] => s
  | [x] => x
  | x :: xs => x ++ repl ++ String.intercalate pat xs

/-- `pathName.substring(pathName.lastIndexOf('/') + 1)`: the final path
segment (the whole string when no `'/'` occurs, matching
`lastIndexOf = -1`). -/
def lastSegment (path : String) : String :=
  (jsSplit path "/").getLastD path

/-- `v.split(sep)` then take the first piece — `x.split('|')[0]` style.
Throws a TypeError unless the receiver is a string. -/
def jsSplitHead (v : JValue) (sep : String) : Except Unit String :=
  match v with
  | .str s => .ok ((jsSplit s sep).headD "")
  | _ => .error ()

/-- `v.split(sep).slice(-1).join(sep)` — the last piece of a string split.
Throws a TypeError unless the receiver is a string. -/
def jsSplitLast (v : JValue) (sep : String) : Except Unit String :=
  match v with
  | .str s => .ok ((jsSplit s sep).getLastD "")
  | _ => .error ()

/-- Substring containment, used for `String.prototype.includes`. -/
def strContains (s sub : String) : Bool :=
  sub = "" || (jsSplit s sub).length > 1

/-- `v.includes(x)`: substring test on strings, `===`-membership on arrays
(only string elements can strictly equal a string); TypeError otherwise. -/
def jsIncludes (v : JValue) (sub : String) : Except Unit Bool :=
  match v with
  | .str s => .ok (strContains s sub)
  | .arr elems => .ok (elems.any fun e => jsStrEq e sub)
  | _ => .error ()

/-- `v.trim()`; TypeError unless the receiver is a string. -/
def jsTrim (v : JValue) : Except Unit String :=
  match v with
  | .str s => .ok (strTrim s)
  | _ => .error ()

/-- `v.toUpperCase()`; TypeError unless the receiver is a string. -/
def jsToUpper (v : JValue) : Except Unit String :=
  match v with
  | .str s => .ok (strToUpper s)
  | _ => .error ()

/-- `v.startsWith(p)`; TypeError unless the receiver is a string. -/
def jsStartsWith (v : JValue) (p : String) : Except Unit Bool :=
  match v with
  | .str s => .ok (strStartsWith s p)
  | _ => .error ()

/-- `v.replace(/pat/g, repl)` (global regex on a literal pattern replaces
every occurrence); TypeError unless the receiver is a string. -/
def jsReplaceAllE (v : JValue) (pat repl : String) : Except Unit String :=
  match v with
  | .str s => .ok (String.intercalate repl (jsSplit s pat))
  | _ => .error ()

/-- The elements of `v` when it is an array; `.map`/`.forEach`/`.filter` on
anything else raise a TypeError. -/
def jsElems (v : JValue) : Except Unit (List JValue) :=
  match v with
  | .arr elems => .ok elems
  | _ => .error ()

/-! ## The Data Fetcher (`loadAllData`, site-loader.js lines 7–61) -/

/-- `JSON_FILES`: the fixed Resource Set (site-loader.js lines 7–24). -/
def JSON_FILES : List String :=
  [ "personal_info.json"
  , "site.json"
  , "key_metrics.json"
  , "education.json"
  , "professional_experience.json"
  , "expertise_achievements.json"
  , "skills.json"
  , "honors_awards.json"
  , "courses_trainings_certificates.json"
  , "projects.json"
  , "memberships.json"
  , "sessions_events.json"
  , "languages.json"
  , "portfolios.json"
  , "volunteerings.json"
  , "publications.json" ]

/-- The outcome of one `fetch(BASE_DATA_PATH + fileName)` together with the
subsequent `response.json()` parse:
`ok v` — success status and body parsed as JSON value `v`;
`httpError` — `!response.ok` (the chain throws before parsing);
`parseError` — success status but `response.json()` rejects. -/
inductive FetchOutcome where
  | ok (v : JValue)
  | httpError
  | parseError

/-- Did this resource's fetch-and-parse chain succeed? -/
def fetchOk : FetchOutcome → Bool
  | .ok _ => true
  | _ => false

/-- The parsed value of a successful outcome. -/
def outcomeValue : FetchOutcome → Option JValue
  | .ok v => some v
  | _ => none

/-- Every resource in the batch succeeded (the `Promise.all` fulfil path). -/
def allOk (out : String → FetchOutcome) : Bool :=
  JSON_FILES.all fun f => fetchOk (out f)

/-- `fileName.replace('.json', '')` — the key under which a file's data is
stored (site-loader.js line 48). -/
def baseName (f : String) : String :=
  replaceFirst f ".json" ""

/-- The global `SITE_DATA` object: an association list with unique keys.
JS object key order is the (scheduling-dependent) completion order of the
fetches; the model fixes the canonical `JSON_FILES` order, and no claim
depends on key order. -/
abbrev Store := List (String × JValue)

/-- `SITE_DATA[k]` — reading a property of the global store object. -/
def storeGet (st : Store) (k : String) : JValue :=
  (st.lookup k).getD (.undef)

/-- The contents of `SITE_DATA` after `loadAllData` settles.

Each per-file promise chain performs `SITE_DATA[baseName] = data` as soon
as its own fetch and parse succeed (lines 47–50), independent of the other
files.  `await Promise.all` resumes after the last write on the all-success
path, so every entry is present; on the failure path it resumes at the
first rejection, and which of the *successful* writes have landed by then
is scheduling-dependent — the parameter `written` records that set. -/
def loadedStore (out : String → FetchOutcome) (written : String → Bool) : Store :=
  (JSON_FILES.filter fun f => fetchOk (out f) && (allOk out || written f)).map
    fun f => (baseName f, (outcomeValue (out f)).getD .undef)

/-- Result of `loadAllData` (lines 36–61): the store contents and whether
the `catch` branch replaced the whole document body with the static error
notice `<h1>Error loading site data. Please check console.</h1>`. -/
structure LoadResult where
  store : Store
  bodyReplaced : Bool
deriving Inhabited

/-- `loadAllData` (lines 36–61): fan out one fetch per `JSON_FILES` entry,
store each parsed result by `baseName`, and on any failure replace the
document body with the error notice.  It resolves (never rejects): the
`catch` swallows the error. -/
def loadAllData (out : String → FetchOutcome) (written : String → Bool) : LoadResult :=
  { store := loadedStore out written
  , bodyReplaced := !allOk out }

/-! ## The DOM model

Each DOM element the loader queries and writes is one *slot*.  A `Dom`
maps each slot to `none` (the element is absent from the page markup) or
`some content` (present, with its current text/markup/attribute payload).
Every write in the source replaces a slot's whole payload (each
`innerHTML +=` loop is preceded by clearing the same container in the same
call), and no write adds or removes any *queried* element, so writes
preserve which slots are present.  Selector chains that reach one element
through a fallback (`getElementById(a) || getElementById(b)`, or a primary
query with a sibling-traversal fallback) are modelled as the single slot
they resolve to. -/

inductive Slot where
  -- document metadata and shared page furniture
  | docTitle | pageTitleH1 | breadcrumbCurrent
  -- renderHeader
  | headerSitename | headerProfileImg | headerLogoImg | headerSocial
  -- renderNavigation / footers
  | navMenu | menuFooter | pageFooter
  -- renderHero
  | heroSection | heroH2 | heroTyped | heroP2 | heroP3
  -- renderAbout (index)
  | aboutSection | aboutProfileImg | aboutSummaryTitle | aboutTitleH2
  | aboutIntroP | aboutLeftList | aboutRightList | researchSummaryArea
  | aboutFullContainer | aboutFullTitle | aboutFullContent
  -- renderAboutCV
  | mainCv | aboutCvProfileImg | aboutCvHeader | aboutCvIntroP
  | aboutCvLeftList | aboutCvRightList
  -- key metrics
  | keyInfoSection | kmTitleH2 | kmDescH6 | kmRow | kmDescP | kmCvRow
  -- educations
  | eduSection | eduTitleH2 | eduDescH6 | eduSummaryH3 | eduSummaryList
  | eduLeftCol | eduRightCol | eduCvTitleH2 | eduCvDescP | eduCvTables
  -- professional experiences
  | peSection | peTitleContainer | peContent | peTitleH2 | peDescH6
  | peExpertiseH3 | peExpertiseH4 | peExpertiseList
  | peResearchItem | peResearchH3 | peResearchH4
  | peResearchCol1 | peResearchCol2 | peResearchCol3
  | peLeftCol | peRightCol | peCvTitleH2 | peCvDescP | peCvTables
  -- expertise and achievements
  | eaSection | eaTitleContainer | eaTitleH2 | eaDescH6 | eaCvTitleH2 | eaCvDescP
  -- skills and tools
  | stSection | stTitleH2 | stDescH6 | stContainer
  | stCvTitleH2 | stCvDescP | stCvTable | stDetailsMain | stDetailsRow
  -- honors and awards
  | haSection | haTitleContainer | haTitleH2 | haDescH6 | haRow
  | haCvTitleH2 | haCvDescP | haCvRow | haDetailsMain | haDetailsRow
  -- courses, trainings and certificates
  | ctcSection | ctcTitleContainer | ctcTitleH2 | ctcDescH6 | ctcFilters | ctcContent
  | ctcCvTitleH2 | ctcCvDescP | ctcCvTables | ctcDetailsMain | ctcDetailsRow
  -- projects
  | prSection | prTitleContainer | prTitleH2 | prDescH6 | prRow
  | prCvTitleH2 | prCvDescP | prCvRow | prDetailsMain | prDetailsRow
  -- memberships
  | mbSection | mbTitleContainer | mbTitleH2 | mbDescH6 | mbRow
  | mbCvTitleH2 | mbCvDescP | mbCvRow | mbDetailsMain | mbDetailsRow
  -- sessions and events
  | seSection | seTitleContainer | seTitleH2 | seDescH6 | seRow
  | seCvTitleH2 | seCvDescP | seCvRow | seDetailsMain | seDetailsRow
  -- languages
  | lgSection | lgTitleContainer | lgTitleH2 | lgDescH6 | lgRow
  | lgCvTitleH2 | lgCvDescP | lgCvRow | lgDetailsMain | lgDetailsRow
  -- portfolios
  | pfSection | pfTitleContainer | pfTitleH2 | pfDescH6 | pfRow
  | pfCvTitleH2 | pfCvDescP | pfCvRow | pfDetailsMain | pfDetailsRow
  -- volunteerings (its details container is also the one the publications
  -- details renderer targets: both use #volunteeringDetails_main)
  | vlSection | vlTitleContainer | vlTitleH2 | vlDescH6 | vlRow
  | vlCvTitleH2 | vlCvDescP | vlCvRow | vlDetailsMain | vlDetailsRow
  -- publications
  | pbSection | pbTitleContainer | pbTitleH2 | pbDescH6 | pbContent
  | pbCvTitleH2 | pbCvRow
deriving DecidableEq

/-- The DOM: payload per present slot. -/
abbrev Dom := Slot → Option String

/-- Which slots are present. -/
def pres (d : Dom) : Slot → Bool := fun s => (d s).isSome

/-- Write payload `v` into slot `s` when it is present (absent elements
cannot be written — guarded writes skip them, unguarded ones throw, which
`RProg.reqSlot` accounts for separately). -/
def setDom (s : Slot) (v : String) (d : Dom) : Dom :=
  fun s' => if s' = s then (d s').map (fun _ => v) else d s'

/-- The DOM effect of one rendering call, compiled (given its data
arguments) from the source's control flow:
* `setSlot s v` — `if (el) el.x = v` : write guarded by element presence;
* `reqSlot s v` — `el.x = v` on an unchecked query result: writes when
  present, raises a TypeError when absent;
* `whenPres s p` — `if (!el) return …` / `if (el) { … }` around `p`;
* `throwE` — a data dereference that raises a TypeError at this point;
* `seq`, `skip` — sequencing and the empty effect. -/
inductive RProg where
  | skip
  | throwE
  | setSlot (s : Slot) (v : String)
  | reqSlot (s : Slot) (v : String)
  | whenPres (s : Slot) (p : RProg)
  | seq (p q : RProg)

/-- Run a render program: final DOM and whether a TypeError escaped.
An error aborts the rest of the program (and, in the dispatcher, the rest
of the page load). -/
def runP : RProg → Dom → Dom × Bool
  | .skip, d => (d, false)
  | .throwE, d => (d, true)
  | .setSlot s v, d => (setDom s v d, false)
  | .reqSlot s v, d => if (d s).isSome then (setDom s v d, false) else (d, true)
  | .whenPres s p, d => if (d s).isSome then runP p d else (d, false)
  | .seq p q, d =>
      let r := runP p d
      if r.2 then r else runP q r.1

/-- Chain a list of programs into one (left-to-right). -/
def seqAll (ps : List RProg) : RProg :=
  ps.foldr .seq .skip

/-! ## Rendering functions (site-loader.js section 3)

Each `render…` definition compiles the JS function of the same name, at
given data arguments, into the `RProg` describing its DOM effect.  Guards,
element queries, early returns and the dereferences that can raise a
TypeError follow the source line by line; literal HTML in the produced
payload strings is abbreviated to the interpolated data fields in source
order (no claim depends on the literal markup text). -/

/-- `updateDocumentMetadata` (lines 77–82). -/
def updateDocumentMetadata (siteInfo : JValue) : RProg :=
  if truthy siteInfo && truthy (getField siteInfo "title")
  then .setSlot .docTitle (jsToString (getField siteInfo "title"))
  else .skip

/-- One social-links anchor (lines 123–127). -/
def socialLinkItemHTML (link : JValue) : String :=
  "<a href=\"" ++ jsToString (getField link "url") ++ "\" target=\"_blank\" class=\""
    ++ jsToString (getField link "platform") ++ "\"><i class=\""
    ++ jsToString (getField link "icon_class") ++ "\"></i></a>"

/-- `siteData.social_links.filter(…).map(…).join('')` (lines 121–127);
`.filter` on a non-array, or a `.platform` read on a null/undefined
element, raises a TypeError. -/
def socialLinksHTML (v : JValue) : Except Unit String := do
  let elems ← jsElems v
  let kept ← elems.filterM fun link => do
    let p ← jsGetE link "platform"
    pure (!(jsStrEq p "google-old" || jsStrEq p "researchgate-old" || jsStrEq p "researchgate-fab"))
  pure (String.intercalate "" (kept.map socialLinkItemHTML))

/-- `renderHeader` (lines 91–129).  After the `!personalInfo || !siteData`
guard it dereferences `siteData.assets.images` unconditionally (line 102),
so a missing `assets` object raises a TypeError. -/
def renderHeader (personalInfo siteData : JValue) : RProg :=
  if !(truthy personalInfo && truthy siteData) then .skip else
  .seq (.setSlot .headerSitename (jsToString (getField personalInfo "name")))
    (match jsGetE (getField siteData "assets") "images" with
     | .error _ => .throwE
     | .ok imageAssets =>
       let iconAssets := getField (getField siteData "assets") "icons"
       .seq (.whenPres .headerProfileImg
              (match jsGetE imageAssets "profile_image_pp" with
               | .error _ => .throwE
               | .ok v => .setSlot .headerProfileImg ("assets/img/" ++ jsToString v)))
        (.seq (.whenPres .headerLogoImg
               (match jsGetE iconAssets "logo_png" with
                | .error _ => .throwE
                | .ok v => .setSlot .headerLogoImg ("assets/img/" ++ jsToString v)))
          (if truthy (getField siteData "social_links") then
            .whenPres .headerSocial
              (match socialLinksHTML (getField siteData "social_links") with
               | .error _ => .throwE
               | .ok h => .setSlot .headerSocial h)
           else .skip)))

/-- One navigation submenu entry (lines 165–169). -/
def navSubItemHTML (subItem : JValue) : Except Unit String := do
  let u ← jsGetE subItem "url"
  pure ("<li><a href=\"" ++ jsToString u ++ "\" class=\"scrollto\"><i class=\""
    ++ jsToString (getField subItem "icon_class") ++ " navicon\"></i> <span>"
    ++ jsToString (getField subItem "label") ++ "</span></a></li>")

/-- One navigation entry (lines 150–179). -/
def navItemHTML (item : JValue) : Except Unit String := do
  let u ← jsGetE item "url"
  let linkClass := if jsStrEq u "#hero" || jsStrEq u "./" then "active scrollto" else "scrollto"
  let subm := getField item "submenu"
  if truthy (getField item "is_dropdown") && truthy subm && jsLengthPos subm then do
    let subs ← jsElems subm
    let subHTML ← subs.mapM navSubItemHTML
    pure ("<li class=\"dropdown\"><a href=\"" ++ jsToString u ++ "\" class=\"" ++ linkClass
      ++ "\"><i class=\"" ++ jsToString (getField item "icon_class") ++ " navicon\"></i> <span>"
      ++ jsToString (getField item "label")
      ++ "</span> <i class=\"bi bi-chevron-down toggle-dropdown\"></i></a><ul class=\"\">"
      ++ String.intercalate "" subHTML ++ "</ul></li>")
  else
    pure ("<li><a href=\"" ++ jsToString u ++ "\" class=\"" ++ linkClass ++ "\"><i class=\""
      ++ jsToString (getField item "icon_class") ++ " navicon\"></i> <span>"
      ++ jsToString (getField item "label") ++ "</span></a> </li>")

/-- The `<ul>…</ul>` the navigation loop builds (lines 147–181). -/
def navHTML (menu : JValue) : Except Unit String := do
  let items ← jsElems menu
  let parts ← items.mapM navItemHTML
  pure ("<ul>" ++ String.intercalate "" parts ++ "</ul>")

/-- `renderNavigation` (lines 137–183).  The HTML is built before the
single write, so a build-time TypeError leaves `#navmenu` untouched. -/
def renderNavigation (navigation : JValue) : RProg :=
  if !(truthy navigation && truthy (getField navigation "main_menu")) then .skip else
  .whenPres .navMenu
    (match navHTML (getField navigation "main_menu") with
     | .error _ => .throwE
     | .ok h => .setSlot .navMenu h)

/-- `renderNavDropdowns` (lines 191–214) only registers click listeners;
it writes no DOM content. -/
def renderNavDropdowns : RProg := .skip

/-- `renderHero` (lines 222–243).  `hero.querySelector('h2').textContent`
is written without a null check (line 226): a `#hero` without an `<h2>`
raises a TypeError. -/
def renderHero (personalInfo : JValue) : RProg :=
  .whenPres .heroSection
    (if !(truthy personalInfo && truthy (getField personalInfo "hero")) then .skip else
     let hero := getField personalInfo "hero"
     .seq (.reqSlot .heroH2 (jsToString (getField hero "title_main")))
      (.seq (.whenPres .heroTyped (.setSlot .heroTyped (jsToString (getField hero "typed_items"))))
       (.seq (.whenPres .heroP2 (.setSlot .heroP2 (jsToString (getField hero "title_researcher"))))
        (.whenPres .heroP3 (.setSlot .heroP3
          (jsToString (getField hero "title_institute_primary") ++ " <br>"
            ++ jsToString (getField hero "title_institute_secondary") ++ " <br>"
            ++ jsToString (getField hero "tagline")))))))

/-- One key-points `<li>` (lines 289–297); the `.icon_class` read raises a
TypeError on a null/undefined element. -/
def keyPointHTML (item : JValue) : Except Unit String := do
  let ic ← jsGetE item "icon_class"
  let linkPart :=
    if truthy (getField item "link")
    then "<a target=\"_blank\" href=\"" ++ jsToString (getField item "link") ++ "\">"
      ++ jsToString (getField item "text") ++ "</a>"
    else jsToString (getField item "text")
  pure ("<li><i class=\"" ++ jsToString ic ++ "\"></i> <strong>"
    ++ jsToString (getField item "strong") ++ ":</strong> <span>" ++ linkPart ++ "</span> </li>")

/-- `summaryData.key_points_*.map(…).join('')`; `.map` on a non-array
raises a TypeError (lines 289, 295). -/
def keyPointsHTML (v : JValue) : Except Unit String := do
  let items ← jsElems v
  let parts ← items.mapM keyPointHTML
  pure (String.intercalate "" parts)

/-- `renderAbout` (lines 252–323).  Reads the global
`SITE_DATA.site.assets` (line 258) after the `#about` guard, and maps over
`profile_summary.key_points_left/right` without an array check. -/
def renderAbout (store : Store) (personalInfo : JValue) : RProg :=
  if !truthy personalInfo then .skip else
  .whenPres .aboutSection
    (match jsGetE (storeGet store "site") "assets" with
     | .error _ => .throwE
     | .ok siteAssets =>
       let summaryData := getField personalInfo "profile_summary"
       .seq (.whenPres .aboutProfileImg
              (if truthy siteAssets then
                match jsGetE (getField siteAssets "images") "profile_image_formal" with
                | .error _ => .throwE
                | .ok v => .setSlot .aboutProfileImg ("assets/img/" ++ jsToString v)
               else .skip))
        (.seq (.whenPres .aboutSummaryTitle
               (if truthy summaryData then
                 .seq (.whenPres .aboutTitleH2 (.setSlot .aboutTitleH2
                        (jsToString (getField summaryData "title") ++ " <a href=\""
                          ++ jsToString (getField summaryData "link_printable_cv")
                          ++ "\"> <i class=\"bx bx-printer\"></i> </a>")))
                  (.seq (.whenPres .aboutIntroP
                          (.setSlot .aboutIntroP (jsToString (getField summaryData "intro_paragraph_html"))))
                   (.seq (.whenPres .aboutLeftList
                           (match keyPointsHTML (getField summaryData "key_points_left") with
                            | .error _ => .throwE
                            | .ok h => .setSlot .aboutLeftList h))
                    (.whenPres .aboutRightList
                           (match keyPointsHTML (getField summaryData "key_points_right") with
                            | .error _ => .throwE
                            | .ok h => .setSlot .aboutRightList h))))
                else .skip))
         (.seq (.whenPres .researchSummaryArea
                (if truthy summaryData then .setSlot .researchSummaryArea
                    ("<b>Research Area:</b> " ++ jsToString (getField summaryData "research_area")
                      ++ " <br><b>Recent Works:</b> " ++ jsToString (getField summaryData "recent_works"))
                 else .skip))
          (let fullAboutData := getField personalInfo "about_full_text"
           .whenPres .aboutFullContainer
             (.seq (.whenPres .aboutFullTitle
                    (if truthy fullAboutData
                     then .setSlot .aboutFullTitle ("<i class=\"bx bx-user\"></i> "
                            ++ jsToString (getField fullAboutData "title"))
                     else .skip))
              (.whenPres .aboutFullContent
                    (if truthy fullAboutData
                     then .setSlot .aboutFullContent (jsToString (getField fullAboutData "paragraph_html"))
                     else .skip)))))))

/-- `renderAboutCV` (lines 332–391).  Dereferences
`SITE_DATA.site.assets` and then `siteAssets.documents.resume_pdf`
unconditionally (lines 339–340). -/
def renderAboutCV (store : Store) (personalInfo : JValue) : RProg :=
  if !truthy personalInfo then .skip else
  .whenPres .mainCv
    (let summaryData := getField personalInfo "profile_summary"
     match jsGetE (storeGet store "site") "assets" with
     | .error _ => .throwE
     | .ok siteAssets =>
       match jsGetE (getField siteAssets "documents") "resume_pdf" with
       | .error _ => .throwE
       | .ok pdf =>
         let resumePdfPath := if truthy pdf then jsToString pdf else "#"
         .seq (.whenPres .aboutCvProfileImg
                (if truthy siteAssets then
                  match jsGetE (getField siteAssets "images") "profile_image_formal" with
                  | .error _ => .throwE
                  | .ok v => .setSlot .aboutCvProfileImg ("assets/img/" ++ jsToString v)
                 else .skip))
          (.seq (.whenPres .aboutCvHeader
                 (if truthy summaryData then .setSlot .aboutCvHeader
                     ("Resume - " ++ jsToString (getField personalInfo "name")
                       ++ " | <a href=\"javascript:void(0);\" onclick=\"PrintElem('main_cv')\"> <i class=\"bx bx-printer\"></i> | </a> <a href=\""
                       ++ resumePdfPath ++ "\" target=\"_blank\"> <i class=\"bx bx-download\"></i> </a>")
                  else .skip))
           (.seq (.whenPres .aboutCvIntroP
                  (if truthy summaryData
                   then .setSlot .aboutCvIntroP (jsToString (getField summaryData "intro_paragraph_html"))
                   else .skip))
            (.seq (.whenPres .aboutCvLeftList (.whenPres .aboutCvRightList
                   (if truthy summaryData then
                     match keyPointsHTML (getField summaryData "key_points_left") with
                     | .error _ => .throwE
                     | .ok hl =>
                       match keyPointsHTML (getField summaryData "key_points_right") with
                       | .error _ => .throwE
                       | .ok hr =>
                         .seq (.setSlot .aboutCvLeftList hl) (.setSlot .aboutCvRightList hr)
                    else .skip)))
             (.whenPres .researchSummaryArea
                   (if truthy summaryData
                    then .setSlot .researchSummaryArea
                      ("<b>Research Area:</b> " ++ jsToString (getField summaryData "research_area")
                        ++ " <br><b>Recent Works:</b> " ++ jsToString (getField summaryData "recent_works"))
                    else .setSlot .researchSummaryArea ""))))))

/-- One menu-footer credits link (lines 3739–3741). -/
def footerLinkHTML (link : JValue) : Except Unit String := do
  let u ← jsGetE link "url"
  pure ("<a href=\"" ++ jsToString u ++ "\"> " ++ jsToString (getField link "label") ++ " </a>")

/-- `renderMenuFooter` (lines 3707–3756).  `copyright_year` falls back to
`'AUTO'`; a truthy non-string year raises a TypeError at `.toUpperCase()`;
`assetData.icons.logo_png` is dereferenced unconditionally; `currentYear`
stands for `new Date().getFullYear()`. -/
def renderMenuFooter (footerMeta assetData : JValue) (currentYear : Int) : RProg :=
  if !(truthy footerMeta && truthy (getField footerMeta "menu_footer")) then .skip else
  let menuFooter := getField footerMeta "menu_footer"
  .whenPres .menuFooter
    (let cy := getField menuFooter "copyright_year"
     let cyVal : JValue := if truthy cy then cy else .str "AUTO"
     match jsToUpper cyVal with
     | .error _ => .throwE
     | .ok upper =>
       let yearText := if upper = "AUTO" then toString currentYear else jsToString cyVal
       match jsGetE (getField assetData "icons") "logo_png" with
       | .error _ => .throwE
       | .ok logo =>
         let logoPath := "assets/img/" ++ jsToString logo
         match (do
           let links ← jsElems (getField menuFooter "links")
           let parts ← links.mapM footerLinkHTML
           pure (String.intercalate " | " parts) : Except Unit String) with
         | .error _ => .throwE
         | .ok linksHTML =>
           .setSlot .menuFooter
             ("<div class=\"container\"><div class=\"copyright\"><p style=\"text-align: center;\">© Copyright · "
               ++ yearText ++ " <strong><span> <a href=\""
               ++ jsToString (getField menuFooter "copyright_logo_link")
               ++ "\"> <img style=\"height: 20px;\" src=\"" ++ logoPath
               ++ "\" alt=\"Logo\" class=\"img-fluid rounded-circle\"> </a> <a href=\""
               ++ jsToString (getField menuFooter "copyright_text_link") ++ "\"> "
               ++ jsToString (getField menuFooter "copyright_owner")
               ++ " </a> </span></strong></p></div><div class=\"credits\">"
               ++ linksHTML ++ "</div></div>"))

/-- `renderPageFooter` (lines 3763–3782). -/
def renderPageFooter (footerMeta : JValue) : RProg :=
  if !(truthy footerMeta && truthy (getField footerMeta "main_page_footer")) then .skip else
  let pageFooter := getField footerMeta "main_page_footer"
  .whenPres .pageFooter
    (.setSlot .pageFooter
      ("<div class=\"container\"><div class=\"copyright text-center \"><p>© <span>Copyright</span> <strong class=\"px-1 sitename\">"
        ++ jsToString (getField pageFooter "sitename")
        ++ "</strong><span>All Rights Reserved</span></p></div><div class=\"credits\">Designed by <a target=\"_blank\" href=\""
        ++ jsToString (getField pageFooter "design_link") ++ "\">"
        ++ jsToString (getField pageFooter "design_credit") ++ "</a></div></div>"))

/-- `<i class="${sectionInfo.icon_class}"></i> ${sectionInfo.title}`
followed by an optional tail — the section heading every section renderer
writes. -/
def sectionHeadHTML (sectionInfo : JValue) (tail : String) : String :=
  "<i class=\"" ++ jsToString (getField sectionInfo "icon_class") ++ "\"></i> "
    ++ jsToString (getField sectionInfo "title") ++ tail

/-- The document-title / `.page-title h1` / breadcrumb updates shared by
every `…Details` renderer (e.g. lines 1392–1407). -/
def detailsHeader (sectionInfo : JValue) : RProg :=
  if truthy sectionInfo then
    .seq (.setSlot .docTitle ("Emran Ali - " ++ jsToString (getField sectionInfo "title") ++ " Details"))
     (.seq (.whenPres .pageTitleH1 (.setSlot .pageTitleH1 (sectionHeadHTML sectionInfo " Details")))
      (.whenPres .breadcrumbCurrent
        (.setSlot .breadcrumbCurrent (jsToString (getField sectionInfo "title") ++ " Details"))))
  else .skip

/-- Concatenate item fragments the way a `forEach { container.innerHTML
+= … }` loop does after the container was cleared: the flag records a
TypeError that aborts the loop, leaving the fragments built so far. -/
def buildConcat (f : JValue → Except Unit String) : List JValue → String × Bool
  | [] => ("", false)
  | x :: rest =>
      match f x with
      | .error _ => ("", true)
      | .ok h =>
          let r := buildConcat f rest
          (h ++ r.1, r.2)

/-- Write the loop's accumulated payload into a cleared container and
propagate a mid-loop TypeError. -/
def clearThenAppend (s : Slot) (acc : String × Bool) : RProg :=
  .seq (.setSlot s acc.1) (if acc.2 then .throwE else .skip)

/-- Build-then-single-write: the write happens only when the whole payload
was built without a TypeError (e.g. `renderNavigation`). -/
def buildThenSet (s : Slot) (h : Except Unit String) : RProg :=
  match h with
  | .error _ => .throwE
  | .ok v => .setSlot s v

/-- `list.map(item => `<li>${item}</li>`).join('')`. -/
def liList (items : List JValue) : String :=
  String.intercalate "" (items.map fun it => "<li>" ++ jsToString it ++ "</li>")

/-- One key-metrics card of the index page (lines 426–434). -/
def kmItemHTML (item : JValue) : Except Unit String := do
  let ic ← jsGetE item "icon_class"
  pure ("<div class=\"col-lg-3 col-md-6\"><div class=\"stats-item\"><i class=\"" ++ jsToString ic
    ++ "\"></i><span data-purecounter-start=\"0\" data-purecounter-end=\""
    ++ jsToString (getField item "value")
    ++ "\" data-purecounter-duration=\"0.75\" class=\"purecounter\"></span><p><strong>"
    ++ jsToString (getField item "strong_text") ++ "</strong> "
    ++ jsToString (getField item "description") ++ "</p></div></div>")

/-- `renderKeyMetrics` (lines 399–440).  The trailing `new PureCounter()`
re-initialisation is a third-party animation hook, outside the DOM-content
model. -/
def renderKeyMetrics (keyMetricsData : JValue) : RProg :=
  if !(truthy keyMetricsData && isArray (getField keyMetricsData "metrics")) then .skip else
  .whenPres .keyInfoSection
    (let sectionInfo := getField keyMetricsData "section_info"
     .seq (.whenPres .kmTitleH2
            (if truthy sectionInfo then .setSlot .kmTitleH2 (sectionHeadHTML sectionInfo "") else .skip))
      (.seq (.whenPres .kmDescH6
             (if truthy sectionInfo then .setSlot .kmDescH6 (jsToString (getField sectionInfo "details")) else .skip))
       (.whenPres .kmRow
         (buildThenSet .kmRow (do
           let items ← jsElems (getField keyMetricsData "metrics")
           let parts ← items.mapM kmItemHTML
           pure (String.intercalate "" parts))))))

/-- One key-metrics entry of the CV page (lines 481–490). -/
def kmCvItemHTML (item : JValue) : Except Unit String := do
  let ic ← jsGetE item "icon_class"
  pure ("<div class=\"col-lg-3 col-md-6\"><div class=\"stats-item\"><p><i class=\"" ++ jsToString ic
    ++ "\"></i> " ++ jsToString (getField item "value") ++ " <strong>"
    ++ jsToString (getField item "strong_text") ++ "</strong> "
    ++ jsToString (getField item "description") ++ "</p></div></div>")

/-- `renderKeyMetricsCV` (lines 448–491).  The `section.nextElementSibling`
container with the `row` class check is the `kmCvRow` slot. -/
def renderKeyMetricsCV (keyMetricsData : JValue) : RProg :=
  if !(truthy keyMetricsData && isArray (getField keyMetricsData "metrics")) then .skip else
  .whenPres .keyInfoSection
    (let sectionInfo := getField keyMetricsData "section_info"
     .seq (.whenPres .kmTitleH2
            (if truthy sectionInfo then .setSlot .kmTitleH2 (sectionHeadHTML sectionInfo "") else .skip))
      (.seq (.whenPres .kmDescP
             (if truthy sectionInfo then .setSlot .kmDescP (jsToString (getField sectionInfo "details")) else .skip))
       (.whenPres .kmCvRow
         (buildThenSet .kmCvRow (do
           let items ← jsElems (getField keyMetricsData "metrics")
           let parts ← items.mapM kmCvItemHTML
           pure (String.intercalate "" parts))))))

/-- One research/project list item of an education entry (lines 596–605 /
730–738): non-string projects are dereferenced, so a null or undefined
project raises a TypeError. -/
def eduProjectHTML (project : JValue) : Except Unit String :=
  match project with
  | .str s => .ok ("<li>" ++ s ++ " </li>")
  | _ => do
    let t ← jsGetE project "title"
    let title := if truthy t then jsToString t else ""
    let isObjType := match project with | .obj _ => true | .arr _ => true | _ => false
    let l := getField project "link"
    let link := if isObjType && truthy l then jsToString l else ""
    let ty := getField project "type"
    let typeStr := if isObjType && truthy ty then "<strong>" ++ jsToString ty ++ ":</strong> " else ""
    let linkTag := if link ≠ ""
      then "<a class=\"scrollto\" href=\"" ++ link ++ "\"><i class=\"bx bx-link\"></i></a>" else ""
    pure ("<li>" ++ typeStr ++ title ++ " " ++ linkTag ++ "</li>")

/-- `generateItemHTML` of `renderEducations` (lines 559–636). -/
def eduItemHTML (degree : JValue) : Except Unit String := do
  let thesisT ← jsGetE degree "thesis_title"
  let thesisL := getField degree "thesis_length"
  let thesisInfo := if truthy thesisT && truthy thesisL
    then "<strong>Thesis:</strong> " ++ jsToString thesisT ++ " — length " ++ jsToString thesisL ++ ".<br>"
    else ""
  let schLink := getField degree "scholarship_link"
  let scholarshipLinkTag := if truthy schLink
    then "<a class=\"scrollto\" href=\"" ++ jsToString schLink ++ "\"><i class=\"bx bx-link\"></i></a>"
    else ""
  let spec := getField degree "specialisation"
  let specialisationHTML := if truthy spec then "<strong>Specialisation:</strong> " ++ jsToString spec ++ "<br>" else ""
  let sch := getField degree "scholarship"
  let scholarshipHTML := if truthy sch
    then "<strong>Scholarship/Fellowship:</strong> " ++ jsToString sch ++ " " ++ scholarshipLinkTag ++ "<br>"
    else ""
  let rt := getField degree "research_topic"
  let researchTopicHTML := if truthy rt then "<strong>Research Topic:</strong> " ++ jsToString rt ++ " <br>" else ""
  let act := getField degree "activities_involvement"
  let activitiesHTML := if truthy act then "<strong>Activities and Involvement:</strong> " ++ jsToString act ++ "<br>" else ""
  let descr := getField degree "description_full"
  let descriptionHTML := if truthy descr then "<p><strong>Description:</strong> " ++ jsToString descr ++ "</p>" else ""
  let projectsList ←
    if isArray (getField degree "research_projects") then do
      let ps ← jsElems (getField degree "research_projects")
      let parts ← ps.mapM eduProjectHTML
      pure (String.intercalate "" parts)
    else pure ""
  let projectsHeading := if projectsList ≠ "" then "<p><strong>Research and Projects:</strong></p>" else ""
  let projectsBlock := if projectsList ≠ "" then "<ul>" ++ projectsList ++ "</ul>" else ""
  let lk := getField degree "link"
  pure ("<div class=\"resume-item pb-0\" data-aos=\"fade-up\" data-aos-delay=\"200\" id=\""
    ++ jsToString (getField degree "degree_id") ++ "\"><h4>"
    ++ jsToString (getField degree "institution_type") ++ "</h4><h6><em>"
    ++ jsToString (getField degree "institution_name") ++ ", "
    ++ jsToString (getField degree "institution_location")
    ++ " <a target=\"_blank\" href=\"" ++ (if truthy lk then jsToString lk else "#")
    ++ "\"><i class=\"bx bx-link-external\"></i></a></em></h6><h5>"
    ++ jsToString (getField degree "timeframe_details") ++ "</h5><p>"
    ++ specialisationHTML ++ scholarshipHTML ++ researchTopicHTML ++ activitiesHTML ++ thesisInfo
    ++ "</p>" ++ descriptionHTML ++ projectsHeading ++ " " ++ projectsBlock ++ "</div>")

/-- The sequence-preserving column placement of `renderEducations`
(lines 639–656): PhD degrees to the left column, Master/Bachelor degrees
to the right, injecting the Bachelor header before the first Bachelor. -/
def eduPlace (bachelorTitle : String) :
    List JValue → String → String → Bool → Except Unit (String × String)
  | [], l, r, _ => .ok (l, r)
  | degree :: rest, l, r, binj => do
    let item ← eduItemHTML degree
    let lvl := getField degree "level"
    let isPhd ← jsIncludes lvl "PhD"
    if isPhd then eduPlace bachelorTitle rest (l ++ item) r binj
    else do
      let isM ← jsIncludes lvl "Master"
      let isB ← jsIncludes lvl "Bachelor"
      if isM || isB then
        if isB && !binj then
          eduPlace bachelorTitle rest l
            (r ++ "<h3 class=\"resume-title\">" ++ bachelorTitle ++ "</h3>" ++ item) true
        else eduPlace bachelorTitle rest l (r ++ item) binj
      else eduPlace bachelorTitle rest l r binj

/-- `renderEducations` (lines 500–661). -/
def renderEducations (educationData : JValue) : RProg :=
  if !(truthy educationData && isArray (getField educationData "degrees")) then .skip else
  .whenPres .eduSection
    (let sectionInfo := getField educationData "section_info"
     let summaryInfo := getField educationData "summary"
     let ct := getField educationData "column_titles"
     let columnTitles := if truthy ct then ct else .obj []
     let leftColumnTitle := if truthy (getField columnTitles "left_column")
       then jsToString (getField columnTitles "left_column") else "Doctor of Philosophy (PhD)"
     let rightColumnMasterTitle := if truthy (getField columnTitles "right_column_master")
       then jsToString (getField columnTitles "right_column_master")
       else "Master of Science (by Research) – MRes"
     let bachelorTitle := if truthy (getField columnTitles "right_column_bachelor")
       then jsToString (getField columnTitles "right_column_bachelor") else "Bachelor of Science (B.Sc.)"
     .seq (.whenPres .eduTitleH2
            (if truthy sectionInfo then .setSlot .eduTitleH2 (sectionHeadHTML sectionInfo "") else .skip))
      (.seq (.whenPres .eduDescH6
             (if truthy sectionInfo then .setSlot .eduDescH6 (jsToString (getField sectionInfo "details")) else .skip))
       (.seq (.whenPres .eduSummaryH3
              (if truthy summaryInfo && truthy (getField summaryInfo "title")
               then .setSlot .eduSummaryH3 (jsToString (getField summaryInfo "title")) else .skip))
        (.seq (.whenPres .eduSummaryList
               (if truthy summaryInfo && isArray (getField summaryInfo "status_list")
                then buildThenSet .eduSummaryList (do
                  let items ← jsElems (getField summaryInfo "status_list")
                  pure (liList items))
                else .skip))
         (.whenPres .eduLeftCol (.whenPres .eduRightCol
           (match jsElems (getField educationData "degrees") with
            | .error _ => .throwE
            | .ok degrees =>
              match eduPlace bachelorTitle degrees
                      ("<h3 class=\"resume-title\">" ++ leftColumnTitle ++ "</h3>")
                      ("<h3 class=\"resume-title\">" ++ rightColumnMasterTitle ++ "</h3>") false with
              | .error _ => .throwE
              | .ok lr => .seq (.setSlot .eduLeftCol lr.1) (.setSlot .eduRightCol lr.2))))))))

/-- `createDetailRow` of `renderEducationsCV` (lines 714–727). -/
def eduCvDetailRow (degree : JValue) (label : String) (content link : JValue) (isThesis : Bool) : String :=
  if !truthy content then "" else
  let thesisLengthText := if truthy (getField degree "thesis_length")
    then jsToString (getField degree "thesis_length") else ""
  let finalContent := if isThesis && thesisLengthText ≠ ""
    then jsToString content ++ " — length " ++ thesisLengthText ++ "." else jsToString content
  let linkTag := if truthy link
    then "<a class=\"scrollto\" href=\"" ++ jsToString link ++ "\"><i class=\"bx bx-link\"></i></a>" else ""
  "<p><strong>" ++ label ++ ":</strong> " ++ finalContent ++ " " ++ linkTag ++ "</p>"

/-- `generateTableHTML` of `renderEducationsCV` (lines 712–791). -/
def eduCvTableHTML (degree : JValue) : Except Unit String := do
  let rp ← jsGetE degree "research_projects"
  let projectsList ←
    if isArray rp then do
      let ps ← jsElems rp
      let parts ← ps.mapM eduProjectHTML
      pure (String.intercalate "" parts)
    else pure ""
  let projectsBlock := if projectsList ≠ ""
    then "<p><strong>Research and Projects:</strong></p><ul>" ++ projectsList ++ "</ul>" else ""
  let lk := getField degree "link"
  let institutionLinkTag := if truthy lk
    then "<a target=\"_blank\" href=\"" ++ jsToString lk ++ "\"><i class=\"bx bx-link-external\"></i></a>"
    else ""
  let descr := getField degree "description_full"
  let descriptionHTML := if truthy descr then "<p>" ++ jsToString descr ++ "</p>" else ""
  let thesisRow := if truthy (getField degree "thesis_title")
    then eduCvDetailRow degree "Thesis" (getField degree "thesis_title") .undef true else ""
  let degreeDetailsHTML :=
    eduCvDetailRow degree "Specialisation" (getField degree "specialisation") .undef false
    ++ eduCvDetailRow degree "Scholarship/Fellowship" (getField degree "scholarship")
         (getField degree "scholarship_link") false
    ++ eduCvDetailRow degree "Research Topic" (getField degree "research_topic") .undef false
    ++ eduCvDetailRow degree "Activities and Involvement" (getField degree "activities_involvement") .undef false
    ++ thesisRow
  pure ("<table><thead><tr><td>" ++ jsToString (getField degree "level")
    ++ "</td></tr></thead><tbody><tr><td><h6>" ++ jsToString (getField degree "institution_type")
    ++ "</h6>" ++ jsToString (getField degree "institution_name") ++ ", "
    ++ jsToString (getField degree "institution_location") ++ " " ++ institutionLinkTag
    ++ " <br><em>" ++ jsToString (getField degree "timeframe_details") ++ "</em>"
    ++ descriptionHTML ++ degreeDetailsHTML ++ projectsBlock ++ "</td></tr></tbody></table>")

/-- `renderEducationsCV` (lines 671–797). -/
def renderEducationsCV (educationData : JValue) : RProg :=
  if !(truthy educationData && isArray (getField educationData "degrees")) then .skip else
  .whenPres .mainCv (.whenPres .eduSection
    (let sectionInfo := getField educationData "section_info"
     .seq (.whenPres .eduCvTitleH2
            (if truthy sectionInfo then .setSlot .eduCvTitleH2 (sectionHeadHTML sectionInfo "") else .skip))
      (.seq (.whenPres .eduCvDescP
             (if truthy sectionInfo && truthy (getField sectionInfo "details")
              then .setSlot .eduCvDescP (jsToString (getField sectionInfo "details"))
              else .setSlot .eduCvDescP ""))
       (.whenPres .eduCvTables
         (match jsElems (getField educationData "degrees") with
          | .error _ => .throwE
          | .ok degrees => clearThenAppend .eduCvTables (buildConcat eduCvTableHTML degrees))))))

/-- `listToHTML` of the professional-experience renderers (lines 922–927 /
1051–1056): non-string-array input renders as the empty string. -/
def peListToHTML (list : JValue) (pre : String) : String :=
  match list with
  | .arr items =>
      if (items.all fun e => match e with | .str _ => true | _ => false) && !items.isEmpty
      then "<p><strong>" ++ pre ++ ":</strong><ul>" ++ liList items ++ "</ul></p>"
      else ""
  | _ => ""

/-- The element list of an array value (empty for anything else). -/
def jsArr : JValue → List JValue
  | .arr xs => xs
  | _ => []

/-- One research-interests column write (lines 895–901): the `forEach`
over `research_interests_columns` writes each of the three `<ul>` columns
that holds an array of strings at its index. -/
def peResearchColProg (cols : List JValue) (slot : Slot) (idx : Nat) : RProg :=
  match cols.get? idx with
  | some listItems =>
      if arrayOfStrings listItems
      then .setSlot slot (liList (match listItems with | .arr xs => xs | _ => []))
      else .skip
  | none => .skip

/-- The three research-interests column writes together (lines 892–901). -/
def peResearchColsProg (columnData : JValue) : RProg :=
  if isArray columnData then
    .seq (peResearchColProg (jsArr columnData) .peResearchCol1 0)
      (.seq (peResearchColProg (jsArr columnData) .peResearchCol2 1)
        (peResearchColProg (jsArr columnData) .peResearchCol3 2))
  else .skip

/-- `generateRoleHTML` of `renderProfessionalExperiences` (lines 919–945). -/
def peRoleHTML (role : JValue) : Except Unit String := do
  let ci ← jsGetE role "course_involvement"
  let courseInvolvementHTML := peListToHTML ci "Course Involvement"
  let rs := getField role "related_skills"
  let skillsHTML := if truthy rs then "<p><strong>Related Skills:</strong> " ++ jsToString rs ++ "</p>" else ""
  pure ("<div class=\"resume-item pb-0\" data-aos=\"fade-up\" data-aos-delay=\"200\"><h4>"
    ++ jsToString (getField role "title") ++ "</h4><h5>"
    ++ jsToString (getField role "timeframe_details") ++ "</h5>"
    ++ peListToHTML (getField role "description_list") "Description"
    ++ peListToHTML (getField role "responsibilities_list") "Responsibilities"
    ++ courseInvolvementHTML ++ skillsHTML ++ "</div>")

/-- The institution header inside an experience group (lines 963–972). -/
def peInstitutionHeaderHTML (experience : JValue) : String :=
  let lk := getField experience "link"
  "<h3 class=\"resume-title\" data-aos=\"fade-up\" data-aos-delay=\"100\">"
    ++ jsToString (getField experience "organization")
    ++ "</h3><h6 data-aos=\"fade-up\" data-aos-delay=\"100\"><em>"
    ++ jsToString (getField experience "location") ++ " <a target=\"_blank\" href=\""
    ++ (if truthy lk then jsToString lk else "#")
    ++ "\"><i class=\"bx bx-link-external\"></i></a> </em></h6> <br>"

/-- The grouped column placement of `renderProfessionalExperiences`
(lines 947–991).  Research/Training categories fill the left column,
everything else the right; the institution header prints only when the
organization changes within that column.  JS tracks the previous
organization by strict equality against the last assigned value; the model
compares the string coercions, which agrees for the string organizations
the templates interpolate. -/
def pePlace : List JValue → String → String → String → String →
    Except Unit (String × String)
  | [], l, r, _, _ => .ok (l, r)
  | experience :: rest, l, r, instLeft, instRight => do
    let cat ← jsGetE experience "category"
    let isResearch ← jsIncludes cat "Research"
    let isTraining ← if isResearch then pure true else jsIncludes cat "Training"
    let toLeft := isResearch || isTraining
    let tracker := if toLeft then instLeft else instRight
    let header := "<h3 class=\"resume-title\"><i class=\""
      ++ jsToString (getField experience "icon_class") ++ "\"></i> " ++ jsToString cat ++ "</h3>"
    let roles ← jsElems (getField experience "roles")
    let org := jsToString (getField experience "organization")
    let roleStep : String × String → JValue → Except Unit (String × String) :=
      fun acc role => do
        let h ← peRoleHTML role
        if jsToString (getField experience "organization") ≠ acc.2
        then pure (acc.1 ++ peInstitutionHeaderHTML experience ++ h, org)
        else pure (acc.1 ++ h, acc.2)
    let g ← roles.foldlM roleStep (header, tracker)
    if toLeft then pePlace rest (l ++ g.1) r g.2 instRight
    else pePlace rest l (r ++ g.1) instLeft g.2

/-- `renderProfessionalExperiences` (lines 808–996). -/
def renderProfessionalExperiences (profExpData : JValue) : RProg :=
  if !(truthy profExpData && arrayOfObjects (getField profExpData "experiences")) then .skip else
  .whenPres .peSection (.whenPres .peTitleContainer (.whenPres .peContent
    (let sectionInfo := getField profExpData "section_info"
     let summaryInfo := getField profExpData "summary"
     .seq (.whenPres .peTitleH2
            (if truthy sectionInfo then .setSlot .peTitleH2 (sectionHeadHTML sectionInfo "") else .skip))
      (.seq (.whenPres .peDescH6
             (if truthy sectionInfo then .setSlot .peDescH6 (jsToString (getField sectionInfo "details")) else .skip))
       (.seq (.whenPres .peExpertiseH3
              (if truthy summaryInfo then .setSlot .peExpertiseH3 (jsToString (getField summaryInfo "title")) else .skip))
       (.seq
         (let el := getField summaryInfo "expertise_list"
          .whenPres .peExpertiseList
            (if truthy summaryInfo && arrayOfObjects el && jsLengthPos el then
              let expertiseListItem := (match el with | .arr (x :: _) => x | _ => .undef)
              let expertiseData := getField expertiseListItem "areas_of_expertise"
              RProg.seq (.whenPres .peExpertiseH4
                     (.setSlot .peExpertiseH4 (jsToString (getField expertiseListItem "title"))))
               (if arrayOfStrings expertiseData
                then buildThenSet .peExpertiseList (do
                  let items ← jsElems expertiseData
                  pure (liList items))
                else .skip)
             else .skip))
        (.seq
          (let el := getField summaryInfo "expertise_list"
           .whenPres .peResearchItem
             (if truthy summaryInfo && arrayOfObjects el
                && (match el with | .arr elems => elems.length > 1 | _ => false) then
               let researchListItem := (match el with | .arr (_ :: y :: _) => y | _ => .undef)
               RProg.seq (.whenPres .peResearchH3
                      (.setSlot .peResearchH3 (jsToString (getField researchListItem "title"))))
                (.seq (.whenPres .peResearchH4
                       (if truthy (getField summaryInfo "details_research_interests")
                        then .setSlot .peResearchH4 (jsToString (getField summaryInfo "details_research_interests"))
                        else .skip))
                 (.whenPres .peResearchCol1 (.whenPres .peResearchCol2 (.whenPres .peResearchCol3
                    (peResearchColsProg (getField researchListItem "research_interests_columns"))))))
              else .skip))
          (.whenPres .peLeftCol (.whenPres .peRightCol
            (match jsElems (getField profExpData "experiences") with
             | .error _ => .throwE
             | .ok experiences =>
               match pePlace experiences "" "" "" "" with
               | .error _ => .throwE
               | .ok lr => .seq (.setSlot .peLeftCol lr.1) (.setSlot .peRightCol lr.2)))))))))))

/-- One role row of the CV experience table (lines 1099–1119). -/
def peCvRoleHTML (experience : JValue) : JValue → Except Unit String := fun role => do
  let ci ← jsGetE role "course_involvement"
  let courseInvolvementHTML := peListToHTML ci "Training Course Involvement"
  let rs := getField role "related_skills"
  let skillsHTML := if truthy rs then "<p><strong>Related Skills:</strong> " ++ jsToString rs ++ "</p>" else ""
  let _ := experience
  pure ("<tr><td><h6>" ++ jsToString (getField role "title") ++ "</h6><em>"
    ++ jsToString (getField role "timeframe_details") ++ "</em>"
    ++ peListToHTML (getField role "description_list") "Description"
    ++ peListToHTML (getField role "responsibilities_list") "Responsibilities"
    ++ courseInvolvementHTML ++ skillsHTML ++ "</td></tr>")

/-- The grouped table generation of `renderProfessionalExperiencesCV`
(lines 1059–1138), tracking the last printed category and institution. -/
def peCvGroups : List JValue → String → String → String × Bool
  | [], _, _ => ("", false)
  | experience :: rest, lastCat, lastInst =>
      match (do
        let cat ← jsGetE experience "category"
        let currentCategory := jsToString cat
        let currentInstitution := jsToString (getField experience "organization")
        let catHeader :=
          if currentCategory ≠ lastCat then
            let ic := getField experience "icon_class"
            let iconClass := if truthy ic then jsToString ic else "bx bx-briefcase"
            "<h5><i class=\"" ++ iconClass ++ "\"></i> " ++ currentCategory ++ "<hr></h5>"
          else ""
        let instAfterCat := if currentCategory ≠ lastCat then "" else lastInst
        let instHeader :=
          if currentInstitution ≠ instAfterCat then
            let lk := getField experience "link"
            let institutionLinkTag := if truthy lk
              then "<a target=\"_blank\" href=\"" ++ jsToString lk ++ "\"><i class=\"bx bx-link-external\"></i></a>"
              else ""
            "<table><thead><tr><td>" ++ jsToString (getField experience "organization")
              ++ " <br><em>" ++ jsToString (getField experience "location") ++ " "
              ++ institutionLinkTag ++ "</em></td></tr></thead><tbody>"
          else ""
        let newInst := if currentInstitution ≠ instAfterCat then currentInstitution else instAfterCat
        let roles ← jsElems (getField experience "roles")
        let rows ← roles.mapM (peCvRoleHTML experience)
        pure (catHeader ++ instHeader ++ String.intercalate "" rows ++ "</tbody></table>",
          currentCategory, newInst) : Except Unit (String × String × String)) with
      | .error _ => ("", true)
      | .ok (g, c, i) =>
          let r := peCvGroups rest c i
          (g ++ r.1, r.2)

/-- `renderProfessionalExperiencesCV` (lines 1006–1139). -/
def renderProfessionalExperiencesCV (profExpData : JValue) : RProg :=
  if !(truthy profExpData && isArray (getField profExpData "experiences")) then .skip else
  .whenPres .mainCv (.whenPres .peSection
    (let sectionInfo := getField profExpData "section_info"
     .seq (.whenPres .peCvTitleH2
            (if truthy sectionInfo then .setSlot .peCvTitleH2 (sectionHeadHTML sectionInfo "") else .skip))
      (.seq (.whenPres .peCvDescP
             (if truthy sectionInfo && truthy (getField sectionInfo "details")
              then .setSlot .peCvDescP (jsToString (getField sectionInfo "details"))
              else .setSlot .peCvDescP ""))
       (.whenPres .peCvTables
         (match jsElems (getField profExpData "experiences") with
          | .error _ => .throwE
          | .ok experiences => clearThenAppend .peCvTables (peCvGroups experiences "" ""))))))

/-- `renderExpertiseAndAchievements` (lines 1149–1171). -/
def renderExpertiseAndAchievements (expertiseData : JValue) : RProg :=
  if !(truthy expertiseData && truthy (getField expertiseData "section_info")) then .skip else
  .whenPres .eaSection (.whenPres .eaTitleContainer
    (let sectionInfo := getField expertiseData "section_info"
     .seq (.whenPres .eaTitleH2 (.setSlot .eaTitleH2 (sectionHeadHTML sectionInfo "")))
      (.whenPres .eaDescH6 (.setSlot .eaDescH6 (jsToString (getField sectionInfo "details"))))))

/-- `renderExpertiseAndAchievementsCV` (lines 1181–1204). -/
def renderExpertiseAndAchievementsCV (expertiseData : JValue) : RProg :=
  if !(truthy expertiseData && truthy (getField expertiseData "section_info")) then .skip else
  .whenPres .eaSection
    (let sectionInfo := getField expertiseData "section_info"
     .seq (.whenPres .eaCvTitleH2 (.setSlot .eaCvTitleH2 (sectionHeadHTML sectionInfo "")))
      (.whenPres .eaCvDescP (.setSlot .eaCvDescP (jsToString (getField sectionInfo "details")))))

/-- One skill progress bar of the index page (lines 1250–1258), with the
bar width applied afterwards from its own `aria-valuenow` (lines
1275–1280) — a pure function of the same data. -/
def skillBarHTML (skill : JValue) : Except Unit String := do
  let cat ← jsGetE skill "category"
  let lvl := jsToString (getField skill "level")
  pure ("<div class=\"progress\"><span class=\"skill\">" ++ jsToString cat ++ ": "
    ++ jsToString (getField skill "short_description") ++ " <i class=\"val\">" ++ lvl
    ++ "%</i></span><div class=\"progress-bar-wrap\"><div class=\"progress-bar\" role=\"progressbar\" aria-valuenow=\""
    ++ lvl ++ "\" aria-valuemin=\"0\" aria-valuemax=\"100\" style=\"width: " ++ lvl
    ++ "%\"></div></div></div>")

/-- The even/odd two-column split of `renderSkillsTools` (lines
1246–1272). -/
def skillsColumnsHTML (skills : List JValue) : Except Unit String := do
  let parts ← skills.mapM skillBarHTML
  let indexed := parts.enum
  let left := indexed.filter (fun p => p.1 % 2 = 0) |>.map Prod.snd
  let right := indexed.filter (fun p => p.1 % 2 = 1) |>.map Prod.snd
  pure ("<div class=\"col-lg-6\">" ++ String.intercalate "" left
    ++ "</div><div class=\"col-lg-6\">" ++ String.intercalate "" right ++ "</div>")

/-- `renderSkillsTools` (lines 1214–1281). -/
def renderSkillsTools (skillsData : JValue) : RProg :=
  if !(truthy skillsData && arrayOfObjects (getField skillsData "skills")) then .skip else
  .whenPres .stSection (.whenPres .stContainer
    (let sectionInfo := getField skillsData "section_info"
     .seq (.whenPres .stTitleH2
            (if truthy sectionInfo
             then .setSlot .stTitleH2 (sectionHeadHTML sectionInfo
               " <a href=\"skillsAndTools-details.html\"><i class=\"bx bx-link\"></i></a>")
             else .skip))
      (.seq (.whenPres .stDescH6
             (if truthy sectionInfo then .setSlot .stDescH6 (jsToString (getField sectionInfo "details")) else .skip))
       (buildThenSet .stContainer (do
         let skills ← jsElems (getField skillsData "skills")
         skillsColumnsHTML skills)))))

/-- One row of the CV skills table (lines 1352–1358). -/
def skillCvRowHTML (skill : JValue) : Except Unit String := do
  let cat ← jsGetE skill "category"
  pure ("<tr><td>" ++ jsToString cat ++ "</td><td>"
    ++ jsToString (getField skill "short_description") ++ "</td><td>"
    ++ jsToString (getField skill "level") ++ "%</td></tr>")

/-- `renderSkillsToolsCV` (lines 1291–1369). -/
def renderSkillsToolsCV (skillsData : JValue) : RProg :=
  if !(truthy skillsData && arrayOfObjects (getField skillsData "skills")) then .skip else
  .whenPres .stSection
    (let sectionInfo := getField skillsData "section_info"
     .seq (.whenPres .stCvTitleH2
            (if truthy sectionInfo
             then .setSlot .stCvTitleH2 (sectionHeadHTML sectionInfo
               " <a href=\"skillsAndTools-details.html\"><i class=\"bx bx-link\"></i></a>")
             else .skip))
      (.seq (.whenPres .stCvDescP
             (if truthy sectionInfo then .setSlot .stCvDescP (jsToString (getField sectionInfo "details")) else .skip))
       (.whenPres .stCvTable
         (let headers := getField sectionInfo "table_headers"
          let headerHTML :=
            if isArray headers && jsLengthPos headers then
              String.intercalate "" ((match headers with | .arr hs => hs | _ => []).map
                fun h => "<td>" ++ jsToString h ++ "</td>")
            else "<td>Area</td><td>Subjects</td><td>Expertise Level</td>"
          buildThenSet .stCvTable (do
            let skills ← jsElems (getField skillsData "skills")
            let rows ← skills.mapM skillCvRowHTML
            pure ("<table><thead><tr>" ++ headerHTML ++ "</tr></thead><tbody>"
              ++ String.intercalate "" rows ++ "</tbody></table><p></p>"))))))

/-- One skills-details card (lines 1417–1425). -/
def skillDetailHTML (skill : JValue) : Except Unit String := do
  let cat ← jsGetE skill "category"
  pure ("<div class=\"general-info\" data-aos=\"fade-up\" data-aos-delay=\"200\"><h3>"
    ++ jsToString cat ++ " </h3><p class=\"description\"><strong>Short Description: </strong> "
    ++ jsToString (getField skill "short_description") ++ " <br><strong>Description: </strong> "
    ++ jsToString (getField skill "details_description") ++ " <br><strong>Level: </strong> "
    ++ jsToString (getField skill "level") ++ "% <br></p></div> ")

/-- `renderSkillsToolsDetails` (lines 1379–1428). -/
def renderSkillsToolsDetails (skillsData : JValue) : RProg :=
  if !(truthy skillsData && arrayOfObjects (getField skillsData "skills")) then .skip else
  .whenPres .stDetailsMain
    (.seq (detailsHeader (getField skillsData "section_info"))
     (.whenPres .stDetailsRow
       (match jsElems (getField skillsData "skills") with
        | .error _ => .throwE
        | .ok skills => clearThenAppend .stDetailsRow (buildConcat skillDetailHTML skills))))

/-- A cleared-then-appended container with the trailing
`container.innerHTML += '<p></p>'` spacer that follows the loop. -/
def clearAppendTail (s : Slot) (acc : String × Bool) : RProg :=
  if acc.2 then .seq (.setSlot s acc.1) .throwE
  else .setSlot s (acc.1 ++ "<p></p>")

/-- One index-page award card (lines 1475–1485). -/
def awardCardHTML (award : JValue) : Except Unit String := do
  let ic ← jsGetE award "icon_class"
  let iconClass := if truthy ic then jsToString ic else "bx bx-award"
  pure ("<div class=\"col-lg-4 col-md-6 service-item d-flex\" data-aos=\"fade-up\" data-aos-delay=\"100\"><div class=\"icon flex-shrink-0\"><i class=\""
    ++ iconClass ++ "\"></i></div><div><h4 class=\"title\"><a href=\"honorsAndAwards-details.html#"
    ++ jsToString (getField award "id_ref") ++ "\" class=\"stretched-link\">"
    ++ jsToString (getField award "title") ++ "</a></h4><p class=\"description\">"
    ++ jsToString (getField award "short_description") ++ "</p></div></div> ")

/-- `renderHonorsAwards` (lines 1437–1487). -/
def renderHonorsAwards (honorsData : JValue) : RProg :=
  if !(truthy honorsData && arrayOfObjects (getField honorsData "honorsawards")) then .skip else
  .whenPres .haSection (.whenPres .haTitleContainer (.whenPres .haRow
    (let sectionInfo := getField honorsData "section_info"
     .seq (.whenPres .haTitleH2
            (if truthy sectionInfo
             then .setSlot .haTitleH2 (sectionHeadHTML sectionInfo
               " <a href=\"honorsAndAwards-details.html\"><i class=\"bx bx-link\"></i></a>")
             else .skip))
      (.seq (.whenPres .haDescH6
             (if truthy sectionInfo then .setSlot .haDescH6 (jsToString (getField sectionInfo "details")) else .skip))
       (match jsElems (getField honorsData "honorsawards") with
        | .error _ => .throwE
        | .ok awards => clearThenAppend .haRow (buildConcat awardCardHTML awards))))))

/-- One CV award card (lines 1538–1546). -/
def awardCvCardHTML (award : JValue) : Except Unit String := do
  let ic ← jsGetE award "icon_class"
  let iconClass := if truthy ic then jsToString ic else "bx bx-award"
  pure ("<div class=\"col-lg-4 col-md-6 service-item d-flex\"><div class=\"icon flex-shrink-0\"><i class=\""
    ++ iconClass ++ "\"></i></div><div><a href=\"honorsAndAwards-details.html#"
    ++ jsToString (getField award "id_ref") ++ "\">" ++ jsToString (getField award "title")
    ++ "</a><p class=\"description\">" ++ jsToString (getField award "short_description")
    ++ "</p></div></div> ")

/-- `renderHonorsAwardsCV` (lines 1496–1551): the sibling-traversal search
for the first `row`-classed sibling is the `haCvRow` slot. -/
def renderHonorsAwardsCV (honorsData : JValue) : RProg :=
  if !(truthy honorsData && arrayOfObjects (getField honorsData "honorsawards")) then .skip else
  .whenPres .haSection
    (let sectionInfo := getField honorsData "section_info"
     .seq (.whenPres .haCvTitleH2
            (if truthy sectionInfo
             then .setSlot .haCvTitleH2 (sectionHeadHTML sectionInfo
               " <a href=\"honorsAndAwards-details.html\"><i class=\"bx bx-link\"></i></a>")
             else .skip))
      (.seq (.whenPres .haCvDescP
             (if truthy sectionInfo then .setSlot .haCvDescP (jsToString (getField sectionInfo "details")) else .skip))
       (.whenPres .haCvRow
         (match jsElems (getField honorsData "honorsawards") with
          | .error _ => .throwE
          | .ok awards => clearAppendTail .haCvRow (buildConcat awardCvCardHTML awards)))))

/-- One details-page award block (lines 1609–1626). -/
def awardDetailHTML (award : JValue) : Except Unit String := do
  let al ← jsGetE award "award_link"
  let titleHTML := if truthy al
    then "<a target=\"_blank\" href=\"" ++ jsToString al ++ "\">" ++ jsToString (getField award "title") ++ "</a>"
    else jsToString (getField award "title")
  let assoc := getField award "associated_organization"
  pure ("<div id=\"" ++ jsToString (getField award "id_ref")
    ++ "\" class=\"general-info\" data-aos=\"fade-up\" data-aos-delay=\"200\"><h3>" ++ titleHTML
    ++ " </h3><p class=\"description\"><strong>Issuer Organisation: </strong> "
    ++ jsToString (getField award "issuer_organization")
    ++ " <br><strong>Associated Organisation: </strong> "
    ++ (if truthy assoc then jsToString assoc else "N/A")
    ++ " <br><strong>Date: </strong> " ++ jsToString (getField award "date")
    ++ " <br><strong>Short Description: </strong> " ++ jsToString (getField award "short_description")
    ++ " <br><strong>Description: </strong> " ++ jsToString (getField award "description_full")
    ++ " <br></p></div> ")

/-- `renderHonorsAwardsDetails` (lines 1561–1631): the container is cleared
first, then the whole payload is built locally and written once. -/
def renderHonorsAwardsDetails (honorsData : JValue) : RProg :=
  if !(truthy honorsData && arrayOfObjects (getField honorsData "honorsawards")) then .skip else
  .whenPres .haDetailsMain (.whenPres .haDetailsRow
    (.seq (detailsHeader (getField honorsData "section_info"))
     (.seq (.setSlot .haDetailsRow "")
      (buildThenSet .haDetailsRow (do
        let awards ← jsElems (getField honorsData "honorsawards")
        let parts ← awards.mapM awardDetailHTML
        pure (String.intercalate "" parts))))))

/-- `parseInt` on the string coercion of a value: leading whitespace and
sign, then digits; `none` for NaN. -/
def jsParseInt (v : JValue) : Option Int :=
  let cs := (jsToString v).toList.dropWhile Char.isWhitespace
  let neg := match cs with | '-' :: _ => true | _ => false
  let rest := match cs with
    | '-' :: r => r
    | '+' :: r => r
    | r => r
  let digits := rest.takeWhile Char.isDigit
  if digits.isEmpty then none
  else
    let n : Int := Int.ofNat (digits.foldl (fun acc c => acc * 10 + (c.toNat - 48)) 0)
    some (if neg then -n else n)

/-- The display names for the certificate filter tags (lines 1800–1808). -/
def ctcFilterName (tag : String) : String :=
  if tag = "*" then "All"
  else if tag = "filter-cert" then "Certificate"
  else if tag = "filter-train" then "Training"
  else if tag = "filter-cour" then "Course"
  else if tag = "filter-conf" then "Conference"
  else if tag = "filter-boot" then "Bootcamp"
  else tag

/-- The aggregation pass of `renderCoursesTrainingsCertificates`
(lines 1772–1795): keep items with a non-blank `serial_no`, collect their
filter tags (a `Set` seeded with `'*'`, insertion-ordered, modelled on the
string coercions), and stable-sort by `parseInt(serial_no)` (items whose
key is NaN keep their relative position). -/
def ctcAggregate (rawItems : List JValue) : Except Unit (List String × List JValue) := do
  let kept ← rawItems.filterM fun item => do
    let sn ← jsGetE item "serial_no"
    pure (truthy sn && strTrim (jsToString sn) ≠ "")
  let tags := kept.foldl (fun acc item =>
    match getField item "filter_tags" with
    | .arr ts => ts.foldl (fun a t =>
        let s := jsToString t
        if a.contains s then a else a ++ [s]) acc
    | _ => acc) ["*"]
  let sorted := kept.mergeSort fun a b =>
    match jsParseInt (getField a "serial_no"), jsParseInt (getField b "serial_no") with
    | some x, some y => x ≤ y
    | _, _ => true
  pure (tags, sorted)

/-- One certificate card of the index page (lines 1819–1843);
`item.source.split(' - ')` raises a TypeError on a non-string source. -/
def ctcItemHTML (item : JValue) : Except Unit String := do
  let sourceShort ← jsSplitLast (getField item "source") " - "
  let filterClasses :=
    match getField item "filter_tags" with
    | .arr ts => String.intercalate " " (ts.map jsToString)
    | _ => ""
  pure ("<div class=\"col-lg-4 col-md-6 portfolio-item isotope-item " ++ filterClasses
    ++ "\" data-aos=\"fade-up\" data-aos-delay=\"200\"><div class=\"portfolio-content h-100\"><img src=\""
    ++ jsToString (getField item "image_path") ++ "\" class=\"img-fluid\" alt=\"Emran Ali - "
    ++ jsToString (getField item "title") ++ " Certificate\"><div class=\"portfolio-info\"><h4>"
    ++ jsToString (getField item "title") ++ " </h4><p>" ++ sourceShort
    ++ "</p><a href=\"" ++ jsToString (getField item "image_path") ++ "\" title=\""
    ++ jsToString (getField item "title")
    ++ "\" data-gallery=\"portfolio-gallery-app\" class=\"glightbox preview-link\"><i class=\"bi bi-zoom-in\"></i></a><a href=\""
    ++ jsToString (getField item "link_target")
    ++ "\" title=\"More Details\" class=\"details-link\"><i class=\"bi bi-link-45deg\"></i></a></div></div></div>")

/-- `renderCoursesTrainingsCertificates` (lines 1739–1845). -/
def renderCoursesTrainingsCertificates (ctcData : JValue) : RProg :=
  if !(truthy ctcData && truthy (getField ctcData "coursestrainingscertificates")) then .skip else
  .whenPres .ctcSection (.whenPres .ctcTitleContainer (.whenPres .ctcFilters (.whenPres .ctcContent
    (let sectionInfo := getField ctcData "section_info"
     .seq (.whenPres .ctcTitleH2
            (if truthy sectionInfo
             then .setSlot .ctcTitleH2 (sectionHeadHTML sectionInfo
               " <a href=\"coursesTrainingsAndCertificates-details.html\"><i class=\"bx bx-link\"></i></a>")
             else .skip))
      (.seq (.whenPres .ctcDescH6
             (if truthy sectionInfo then .setSlot .ctcDescH6 (jsToString (getField sectionInfo "details")) else .skip))
       (match (do
          let rawItems ← jsElems (getField ctcData "coursestrainingscertificates")
          ctcAggregate rawItems : Except Unit (List String × List JValue)) with
        | .error _ => .throwE
        | .ok agg =>
          let filtersHTML := String.intercalate "" (agg.1.map fun tag =>
            "<li data-filter=\"." ++ tag ++ "\" class=\""
              ++ (if tag = "*" then "filter-active" else "") ++ "\">" ++ ctcFilterName tag ++ "</li>")
          .seq (.setSlot .ctcFilters filtersHTML)
           (clearThenAppend .ctcContent (buildConcat ctcItemHTML agg.2))))))))

/-- One CV certificate table row (lines 1905–1940); `details.date` raises
a TypeError when `item.details` is null or undefined. -/
def ctcCvRowHTML (item : JValue) : Except Unit String := do
  let details ← jsGetE item "details"
  let dt ← jsGetE details "date"
  let subjectLink := if truthy (getField item "link_target")
    then "<a href=\"" ++ jsToString (getField item "link_target") ++ "\">"
      ++ jsToString (getField item "title") ++ "</a>"
    else jsToString (getField item "title")
  pure ("<tr><td>" ++ subjectLink ++ "</td><td>" ++ jsToString (getField item "source")
    ++ " (" ++ jsToString dt ++ ") <br>" ++ jsToString (getField details "description")
    ++ " </td></tr>")

/-- `renderCoursesTrainingsCertificatesCV` (lines 1855–1950).
`sectionInfo.table_headers.map` runs unguarded (lines 1890–1891): a
missing `section_info` or non-array `table_headers` raises a TypeError. -/
def renderCoursesTrainingsCertificatesCV (coursesData : JValue) : RProg :=
  if !(truthy coursesData && arrayOfObjects (getField coursesData "coursestrainingscertificates")) then .skip else
  .whenPres .ctcSection (.whenPres .ctcCvTables
    (let sectionInfo := getField coursesData "section_info"
     .seq (.whenPres .ctcCvTitleH2
            (if truthy sectionInfo
             then .setSlot .ctcCvTitleH2 (sectionHeadHTML sectionInfo
               " <a href=\"coursesTrainingsAndCertificates-details.html\"><i class=\"bx bx-link\"></i></a>")
             else .skip))
      (.seq (.whenPres .ctcCvDescP
             (if truthy sectionInfo then .setSlot .ctcCvDescP (jsToString (getField sectionInfo "details")) else .skip))
       (match (do
          let headers ← match getField sectionInfo "table_headers" with
            | .arr hs => Except.ok hs
            | .undef => Except.error ()
            | .null => Except.error ()
            | _ => Except.error ()
          let headerHTML := String.intercalate "" (headers.map fun h => "<td>" ++ jsToString h ++ "</td>")
          let courses ← jsElems (getField coursesData "coursestrainingscertificates")
          let rows ← courses.mapM ctcCvRowHTML
          pure ("<table><thead><tr>" ++ headerHTML ++ "</tr></thead><tbody>"
            ++ String.intercalate "" rows ++ "</tbody></table>") : Except Unit String) with
        | .error _ => .throwE
        | .ok tableHTML => .setSlot .ctcCvTables (tableHTML ++ "<p></p>")))))

/-- One details-page certificate block (lines 2005–2047). -/
def ctcDetailHTML (item : JValue) : Except Unit String := do
  let details ← jsGetE item "details"
  let ki ← jsGetE details "key_information"
  let keyInfoList ←
    if truthy ki then do
      let infos ← jsElems ki
      pure (String.intercalate "" (infos.map fun info => "<br>- " ++ jsToString info))
    else pure "N/A"
  let cl := getField details "certificate_link"
  let titleLinkHTML := if truthy cl
    then "<a target=\"_blank\" href=\"" ++ jsToString cl ++ "\">" ++ jsToString (getField item "title") ++ "</a>"
    else jsToString (getField item "title")
  let imageBlock := if truthy (getField item "image_path")
    then "<div><a href=\"" ++ jsToString (getField item "image_path") ++ "\" title=\""
      ++ jsToString (getField item "source")
      ++ "\" data-gallery=\"portfolio-gallery-app\" class=\"glightbox preview-link\"><img src=\""
      ++ jsToString (getField item "image_path")
      ++ "\" class=\"portfolio-content responsive-img\" alt=\"Certificate: "
      ++ jsToString (getField item "title") ++ "\"></a></div>"
    else ""
  let courseLinkRow := if truthy (getField details "course_link")
    then "<br><strong>Course Link: </strong> <a target=\"_blank\" href=\""
      ++ jsToString (getField details "course_link") ++ "\">" ++ jsToString (getField details "course_link")
      ++ " <i class=\"bx bx-link-external\"></i></a>"
    else ""
  let certLinkRow := if truthy cl
    then "<br><strong>Certificate Link: </strong> <a target=\"_blank\" href=\"" ++ jsToString cl
      ++ "\">" ++ jsToString cl ++ " <i class=\"bx bx-link-external\"></i></a>"
    else ""
  let fo := getField details "funding_organization"
  pure ("<div id=\"" ++ jsToString (getField item "id_ref")
    ++ "\" class=\"general-info\" data-aos=\"fade-up\" data-aos-delay=\"200\"><h3>" ++ titleLinkHTML
    ++ " </h3>" ++ imageBlock ++ "<p class=\"description\"><br><strong>Type: </strong> "
    ++ jsToString (getField details "type") ++ "<br><strong>Description: </strong> "
    ++ jsToString (getField details "description") ++ courseLinkRow
    ++ "<br><strong>Offering Organisation: </strong> " ++ jsToString (getField details "offering_organization")
    ++ "<br><strong>Funding Organisation: </strong> " ++ (if truthy fo then jsToString fo else "N/A")
    ++ "<br><strong>Key Information: </strong> " ++ keyInfoList
    ++ "<br><strong>Date: </strong> " ++ jsToString (getField details "date")
    ++ certLinkRow ++ "</p></div> ")

/-- `renderCoursesTrainingsCertificatesDetails` (lines 1960–2058): page
headers, clear, build locally, single write.  The trailing GLightbox
re-scan is a third-party hook outside the DOM-content model. -/
def renderCoursesTrainingsCertificatesDetails (coursesData : JValue) : RProg :=
  if !(truthy coursesData && arrayOfObjects (getField coursesData "coursestrainingscertificates")) then .skip else
  .whenPres .ctcDetailsMain
    (.seq (detailsHeader (getField coursesData "section_info"))
     (.whenPres .ctcDetailsRow
       (.seq (.setSlot .ctcDetailsRow "")
        (buildThenSet .ctcDetailsRow (do
          let courses ← jsElems (getField coursesData "coursestrainingscertificates")
          let parts ← courses.mapM ctcDetailHTML
          pure (String.intercalate "" parts))))))

/-- One index-page project card (lines 2100–2122); splitting a non-string
`timeframe_details`, or a missing `section_info` at the icon read, raises
a TypeError. -/
def projCardHTML (sectionInfo : JValue) (project : JValue) : Except Unit String := do
  let t ← jsGetE project "title"
  let tf ← jsSplitHead (getField project "timeframe_details") "|"
  let ic ← jsGetE sectionInfo "icon_class"
  let icon := if truthy ic then jsToString ic else "bx bx-bulb"
  pure ("<div class=\"col-lg-4 col-md-6 service-item d-flex\" data-aos=\"fade-up\" data-aos-delay=\"100\"><div class=\"icon flex-shrink-0\"><i class=\""
    ++ icon ++ "\"></i></div><div><h4 class=\"title\"><a href=\"projects-details.html#"
    ++ jsToString (getField project "id_ref") ++ "\" class=\"stretched-link\">"
    ++ jsToString (getField project "role")
    ++ "</a></h4><p class=\"description\"><strong>Project:</strong> " ++ jsToString t
    ++ "<br><strong>Funding:</strong> " ++ jsToString (getField project "funding_organization")
    ++ " (" ++ strTrim tf ++ ")</p></div></div> ")

/-- `renderProjects` (lines 2067–2124). -/
def renderProjects (projectsData : JValue) : RProg :=
  if !(truthy projectsData && arrayOfObjects (getField projectsData "projects")) then .skip else
  .whenPres .prSection (.whenPres .prTitleContainer (.whenPres .prRow
    (let sectionInfo := getField projectsData "section_info"
     .seq (.whenPres .prTitleH2
            (if truthy sectionInfo
             then .setSlot .prTitleH2 (sectionHeadHTML sectionInfo
               " <a href=\"projects-details.html\"><i class=\"bx bx-link\"></i></a>")
             else .skip))
      (.seq (.whenPres .prDescH6
             (if truthy sectionInfo then .setSlot .prDescH6 (jsToString (getField sectionInfo "details")) else .skip))
       (match jsElems (getField projectsData "projects") with
        | .error _ => .throwE
        | .ok projects => clearThenAppend .prRow (buildConcat (projCardHTML sectionInfo) projects))))))

/-- One CV project card (lines 2174–2189). -/
def projCvCardHTML (sectionInfo : JValue) (project : JValue) : Except Unit String := do
  let t ← jsGetE project "title"
  let tf ← jsSplitHead (getField project "timeframe_details") "|"
  let ic ← jsGetE sectionInfo "icon_class"
  let icon := if truthy ic then jsToString ic else "bx bx-bulb"
  pure ("<div class=\"col-lg-4 col-md-6 service-item d-flex\"><div class=\"icon flex-shrink-0\"><i class=\""
    ++ icon ++ "\"></i></div><div><a href=\"projects-details.html#"
    ++ jsToString (getField project "id_ref") ++ "\">" ++ jsToString (getField project "role")
    ++ "</a><p class=\"description\"><strong>Project:</strong> " ++ jsToString t
    ++ "<br><strong>Funding:</strong> " ++ jsToString (getField project "funding_organization")
    ++ " (" ++ strTrim tf ++ ")</p></div></div> ")

/-- `renderProjectsCV` (lines 2133–2194): the sibling-traversal container
(`prCvRow`) is resolved, and returned from on failure, before the section
title writes. -/
def renderProjectsCV (projectsData : JValue) : RProg :=
  if !(truthy projectsData && arrayOfObjects (getField projectsData "projects")) then .skip else
  .whenPres .prSection (.whenPres .prCvRow
    (let sectionInfo := getField projectsData "section_info"
     .seq (.whenPres .prCvTitleH2
            (if truthy sectionInfo
             then .setSlot .prCvTitleH2 (sectionHeadHTML sectionInfo
               " <a href=\"projects-details.html\"><i class=\"bx bx-link\"></i></a>")
             else .skip))
      (.seq (.whenPres .prCvDescP
             (if truthy sectionInfo then .setSlot .prCvDescP (jsToString (getField sectionInfo "details")) else .skip))
       (match jsElems (getField projectsData "projects") with
        | .error _ => .throwE
        | .ok projects => clearAppendTail .prCvRow (buildConcat (projCvCardHTML sectionInfo) projects)))))

/-- One details-page project block (lines 2241–2266). -/
def projDetailHTML (project : JValue) : Except Unit String := do
  let co ← jsGetE project "collaboration_organization"
  let orgsDisplay := if truthy co then co else getField project "organization"
  let imageBlock := if truthy (getField project "image_path")
    then "<div><img src=\"" ++ jsToString (getField project "image_path")
      ++ "\" alt=\"Project Image\" class=\"img-fluid\" style=\"max-height: 150px;\"></div>"
    else ""
  let fo := getField project "funding_organization"
  let linkRow := if truthy (getField project "url_link")
    then "<strong>Link: </strong> <a target=\"_blank\" href=\"" ++ jsToString (getField project "url_link")
      ++ "\">View Link <i class=\"bx bx-link-external\"></i></a>"
    else ""
  pure ("<div id=\"" ++ jsToString (getField project "id_ref")
    ++ "\" class=\"general-info\" data-aos=\"fade-up\" data-aos-delay=\"200\"><h3>"
    ++ jsToString (getField project "role") ++ " </h3>" ++ imageBlock
    ++ "<p class=\"description\"><strong>Title: </strong> " ++ jsToString (getField project "title")
    ++ " <br><strong>Basi Details: </strong> " ++ jsToString (getField project "basic_details")
    ++ " <br><strong>Description: </strong> " ++ jsToString (getField project "long_description")
    ++ " <br><strong>Fund: </strong> " ++ jsToString (getField project "funding")
    ++ " <br><strong>Funding Organisation: </strong> " ++ (if truthy fo then jsToString fo else "N/A")
    ++ " <br><strong>Collaboration Organisation: </strong> " ++ jsToString orgsDisplay
    ++ " <br><strong>Period: </strong> " ++ jsToString (getField project "timeframe_details")
    ++ " <br>" ++ linkRow ++ "</p></div> ")

/-- `renderProjectsDetails` (lines 2203–2270). -/
def renderProjectsDetails (projectsData : JValue) : RProg :=
  if !(truthy projectsData && arrayOfObjects (getField projectsData "projects")) then .skip else
  .whenPres .prDetailsMain
    (.seq (detailsHeader (getField projectsData "section_info"))
     (.whenPres .prDetailsRow
       (.seq (.setSlot .prDetailsRow "")
        (buildThenSet .prDetailsRow (do
          let projects ← jsElems (getField projectsData "projects")
          let parts ← projects.mapM projDetailHTML
          pure (String.intercalate "" parts))))))

/-- One index-page membership card (lines 2311–2325). -/
def membershipCardHTML (membership : JValue) : Except Unit String := do
  let ds ← jsGetE membership "description_short"
  let ic := getField membership "icon_class"
  let icon := if truthy ic then jsToString ic else "bx bx-group"
  pure ("<div class=\"col-lg-4 col-md-6 service-item d-flex\" data-aos=\"fade-up\" data-aos-delay=\"100\"><div class=\"icon flex-shrink-0\"><i class=\""
    ++ icon ++ "\"></i></div><div><h4 class=\"title\"><a href=\"memberships-details.html#"
    ++ jsToString (getField membership "id_ref") ++ "\" class=\"stretched-link\">"
    ++ jsToString (getField membership "title") ++ "</a></h4><p class=\"description\">"
    ++ jsToString ds ++ "</p></div></div> ")

/-- `renderMemberships` (lines 2279–2327). -/
def renderMemberships (membershipsData : JValue) : RProg :=
  if !(truthy membershipsData && arrayOfObjects (getField membershipsData "memberships")) then .skip else
  .whenPres .mbSection (.whenPres .mbTitleContainer (.whenPres .mbRow
    (let sectionInfo := getField membershipsData "section_info"
     .seq (.whenPres .mbTitleH2
            (if truthy sectionInfo
             then .setSlot .mbTitleH2 (sectionHeadHTML sectionInfo
               " <a href=\"memberships-details.html\"><i class=\"bx bx-link\"></i></a>")
             else .skip))
      (.seq (.whenPres .mbDescH6
             (if truthy sectionInfo then .setSlot .mbDescH6 (jsToString (getField sectionInfo "details")) else .skip))
       (match jsElems (getField membershipsData "memberships") with
        | .error _ => .throwE
        | .ok memberships => clearThenAppend .mbRow (buildConcat membershipCardHTML memberships))))))

/-- One CV membership card (lines 2375–2387). -/
def membershipCvCardHTML (membership : JValue) : Except Unit String := do
  let ds ← jsGetE membership "description_short"
  let ic := getField membership "icon_class"
  let icon := if truthy ic then jsToString ic else "bx bx-group"
  pure ("<div class=\"col-lg-4 col-md-6 service-item d-flex\"><div class=\"icon flex-shrink-0\"><i class=\""
    ++ icon ++ "\"></i></div><div><a href=\"memberships-details.html#"
    ++ jsToString (getField membership "id_ref") ++ "\">" ++ jsToString (getField membership "title")
    ++ "</a><p class=\"description\">" ++ jsToString ds ++ "</p></div></div> ")

/-- `renderMembershipsCV` (lines 2336–2392): container resolved before the
title writes. -/
def renderMembershipsCV (membershipsData : JValue) : RProg :=
  if !(truthy membershipsData && arrayOfObjects (getField membershipsData "memberships")) then .skip else
  .whenPres .mbSection (.whenPres .mbCvRow
    (let sectionInfo := getField membershipsData "section_info"
     .seq (.whenPres .mbCvTitleH2
            (if truthy sectionInfo
             then .setSlot .mbCvTitleH2 (sectionHeadHTML sectionInfo
               " <a href=\"memberships-details.html\"><i class=\"bx bx-link\"></i></a>")
             else .skip))
      (.seq (.whenPres .mbCvDescP
             (if truthy sectionInfo then .setSlot .mbCvDescP (jsToString (getField sectionInfo "details")) else .skip))
       (match jsElems (getField membershipsData "memberships") with
        | .error _ => .throwE
        | .ok memberships => clearAppendTail .mbCvRow (buildConcat membershipCvCardHTML memberships)))))

/-- One details-page membership block (lines 2437–2459). -/
def membershipDetailHTML (membership : JValue) : Except Unit String := do
  let he ← jsGetE membership "has_expiry"
  let hasExpiryDisplay := if truthy he then "True" else "False"
  let ul := getField membership "url_link"
  let roleLink := if truthy ul
    then "<a target=\"_blank\" href=\"" ++ jsToString ul ++ "\">" ++ jsToString (getField membership "role")
      ++ " <i class=\"bx bx-link-external\"></i></a>"
    else jsToString (getField membership "role")
  let org := getField membership "organization_name"
  let orgText := if truthy org then jsToString org else "N/A"
  let loc := getField membership "location"
  let df := getField membership "description_full"
  pure ("<div id=\"" ++ jsToString (getField membership "id_ref")
    ++ "\" class=\"general-info\" data-aos=\"fade-up\" data-aos-delay=\"200\"><h3>"
    ++ jsToString (getField membership "title") ++ " </h3><p class=\"description\"><strong>Role: </strong> "
    ++ roleLink ++ " <br><strong>Organisation: </strong> " ++ orgText
    ++ " <br><strong>Institute: </strong> " ++ orgText
    ++ " <br><strong>Address: </strong> " ++ (if truthy loc then jsToString loc else "N/A")
    ++ " <br><strong>Has Expiry: </strong> " ++ hasExpiryDisplay
    ++ " <br><strong>Validity Period: </strong> " ++ jsToString (getField membership "timeframe")
    ++ " <br><strong>Description: </strong> " ++ (if truthy df then jsToString df else "N/A")
    ++ " <br></p></div> ")

/-- `renderMembershipsDetails` (lines 2401–2463): the container lookup
falls back from `#membershipsDetails_main` to `#honorsAwardsDetails_main`;
the slot models the element that chain resolves to. -/
def renderMembershipsDetails (membershipsData : JValue) : RProg :=
  if !(truthy membershipsData && arrayOfObjects (getField membershipsData "memberships")) then .skip else
  .whenPres .mbDetailsMain
    (.seq (detailsHeader (getField membershipsData "section_info"))
     (.whenPres .mbDetailsRow
       (.seq (.setSlot .mbDetailsRow "")
        (buildThenSet .mbDetailsRow (do
          let memberships ← jsElems (getField membershipsData "memberships")
          let parts ← memberships.mapM membershipDetailHTML
          pure (String.intercalate "" parts))))))

/-- One index-page sessions/events card (lines 2514–2527). -/
def eventCardHTML (event : JValue) : Except Unit String := do
  let descr ← jsGetE event "description"
  let ic := getField event "icon_class"
  let icon := if truthy ic then jsToString ic else "bi bi-calendar-event"
  pure ("<div class=\"col-lg-4 col-md-6 service-item d-flex\" data-aos=\"fade-up\" data-aos-delay=\"100\"><div class=\"icon flex-shrink-0\"><i class=\""
    ++ icon ++ "\"></i></div><div><h4 class=\"title\"><a href=\"sessionsAndEvents-details.html#"
    ++ jsToString (getField event "id_ref") ++ "\" class=\"stretched-link\">"
    ++ jsToString (getField event "title") ++ "</a></h4><p class=\"description\">"
    ++ jsToString descr ++ " - " ++ jsToString (getField event "organization") ++ " on "
    ++ jsToString (getField event "date") ++ "</p></div></div> ")

/-- `renderSessionsEvents` (lines 2472–2529): the items row is found by a
primary selector with a fallback; both resolve to the `seRow` slot. -/
def renderSessionsEvents (sessionsEventsData : JValue) : RProg :=
  if !(truthy sessionsEventsData && arrayOfObjects (getField sessionsEventsData "sessionsevents")) then .skip else
  .whenPres .seSection (.whenPres .seTitleContainer (.whenPres .seRow
    (let sectionInfo := getField sessionsEventsData "section_info"
     .seq (.whenPres .seTitleH2
            (if truthy sectionInfo
             then .setSlot .seTitleH2 (sectionHeadHTML sectionInfo
               " <a href=\"sessionsAndEvents-details.html\"><i class=\"bx bx-link\"></i></a>")
             else .skip))
      (.seq (.whenPres .seDescH6
             (if truthy sectionInfo then .setSlot .seDescH6 (jsToString (getField sectionInfo "details")) else .skip))
       (match jsElems (getField sessionsEventsData "sessionsevents") with
        | .error _ => .throwE
        | .ok events => clearThenAppend .seRow (buildConcat eventCardHTML events))))))

/-- One CV sessions/events card (lines 2587–2599). -/
def eventCvCardHTML (event : JValue) : Except Unit String := do
  let descr ← jsGetE event "description"
  let ic := getField event "icon_class"
  let icon := if truthy ic then jsToString ic else "bi bi-calendar-event"
  pure ("<div class=\"col-lg-4 col-md-6 service-item d-flex\"><div class=\"icon flex-shrink-0\"><i class=\""
    ++ icon ++ "\"></i></div><div><a href=\"sessionsAndEvents-details.html#"
    ++ jsToString (getField event "id_ref") ++ "\">" ++ jsToString (getField event "title")
    ++ "</a><p class=\"description\">" ++ jsToString descr ++ " - "
    ++ jsToString (getField event "organization") ++ " on "
    ++ jsToString (getField event "date") ++ "</p></div></div> ")

/-- `renderSessionsEventsCV` (lines 2538–2604): container (primary
selector plus sibling-traversal fallback → `seCvRow`) resolved before the
title writes. -/
def renderSessionsEventsCV (sessionsEventsData : JValue) : RProg :=
  if !(truthy sessionsEventsData && arrayOfObjects (getField sessionsEventsData "sessionsevents")) then .skip else
  .whenPres .seSection (.whenPres .seCvRow
    (let sectionInfo := getField sessionsEventsData "section_info"
     .seq (.whenPres .seCvTitleH2
            (if truthy sectionInfo
             then .setSlot .seCvTitleH2 (sectionHeadHTML sectionInfo
               " <a href=\"sessionsAndEvents-details.html\"><i class=\"bx bx-link\"></i></a>")
             else .skip))
      (.seq (.whenPres .seCvDescP
             (if truthy sectionInfo then .setSlot .seCvDescP (jsToString (getField sectionInfo "details")) else .skip))
       (match jsElems (getField sessionsEventsData "sessionsevents") with
        | .error _ => .throwE
        | .ok events => clearAppendTail .seCvRow (buildConcat eventCvCardHTML events)))))

/-- One details-page sessions/events block (lines 2660–2675). -/
def eventDetailHTML (event : JValue) : Except Unit String := do
  let t ← jsGetE event "title"
  let ty := getField event "type"
  let org := getField event "organization"
  let linkRow := if truthy (getField event "url_link")
    then "<strong>Link: </strong> <a target=\"_blank\" href=\"" ++ jsToString (getField event "url_link")
      ++ "\">View Link <i class=\"bx bx-link-external\"></i></a>"
    else ""
  pure ("<div id=\"" ++ jsToString (getField event "id_ref")
    ++ "\" class=\"general-info\" data-aos=\"fade-up\" data-aos-delay=\"200\"><h3>" ++ jsToString t
    ++ " </h3><p class=\"description\"><strong>Role: </strong> " ++ jsToString t
    ++ " <br><strong>Title: </strong> " ++ jsToString (getField event "description")
    ++ " <br><strong>Type: </strong> " ++ (if truthy ty then jsToString ty else "N/A")
    ++ " <br><strong>Organisation: </strong> " ++ (if truthy org then jsToString org else "N/A")
    ++ " <br><strong>Date: </strong> " ++ jsToString (getField event "date")
    ++ " <br>" ++ linkRow ++ "</p></div> ")

/-- `renderSessionsEventsDetails` (lines 2613–2679): targets the
`#membershipsDetails` section present in that page's markup
(`seDetailsMain`). -/
def renderSessionsEventsDetails (sessionsEventsData : JValue) : RProg :=
  if !(truthy sessionsEventsData && arrayOfObjects (getField sessionsEventsData "sessionsevents")) then .skip else
  .whenPres .seDetailsMain
    (.seq (detailsHeader (getField sessionsEventsData "section_info"))
     (.whenPres .seDetailsRow
       (.seq (.setSlot .seDetailsRow "")
        (buildThenSet .seDetailsRow (do
          let events ← jsElems (getField sessionsEventsData "sessionsevents")
          let parts ← events.mapM eventDetailHTML
          pure (String.intercalate "" parts))))))

/-- The flag-or-default icon of a language card (lines 2728–2732). -/
def languageIconHTML (language : JValue) : String :=
  if truthy (getField language "icon_class")
  then "<div class=\"icon flex-shrink-0\"><span class=\"flag-icon-container\"><span class=\""
    ++ jsToString (getField language "icon_class") ++ "\"></span></span></div>"
  else "<div class=\"icon flex-shrink-0\"><i class=\"bx bx-conversation\"></i></div>"

/-- One index-page language card (lines 2726–2747). -/
def languageCardHTML (language : JValue) : Except Unit String := do
  let _ ← jsGetE language "icon_class"
  pure ("<div class=\"col-lg-4 col-md-6 service-item d-flex\" data-aos=\"fade-up\" data-aos-delay=\"100\">"
    ++ languageIconHTML language ++ "<div><h4 class=\"title\"><a href=\"languages-details.html#"
    ++ jsToString (getField language "id_ref") ++ "\" class=\"stretched-link\">"
    ++ jsToString (getField language "language") ++ "</a></h4><p class=\"description\">"
    ++ jsToString (getField language "details") ++ "</p></div></div> ")

/-- `renderLanguages` (lines 2688–2749). -/
def renderLanguages (languagesData : JValue) : RProg :=
  if !(truthy languagesData && arrayOfObjects (getField languagesData "languages")) then .skip else
  .whenPres .lgSection (.whenPres .lgTitleContainer (.whenPres .lgRow
    (let sectionInfo := getField languagesData "section_info"
     .seq (.whenPres .lgTitleH2
            (if truthy sectionInfo
             then .setSlot .lgTitleH2 (sectionHeadHTML sectionInfo
               " <a href=\"languages-details.html\"><i class=\"bx bx-link\"></i></a>")
             else .skip))
      (.seq (.whenPres .lgDescH6
             (if truthy sectionInfo then .setSlot .lgDescH6 (jsToString (getField sectionInfo "details")) else .skip))
       (match jsElems (getField languagesData "languages") with
        | .error _ => .throwE
        | .ok languages => clearThenAppend .lgRow (buildConcat languageCardHTML languages))))))

/-- One CV language card (lines 2795–2814). -/
def languageCvCardHTML (language : JValue) : Except Unit String := do
  let _ ← jsGetE language "icon_class"
  pure ("<div class=\"col-lg-4 col-md-6 service-item d-flex\">" ++ languageIconHTML language
    ++ "<div><a href=\"languages-details.html#" ++ jsToString (getField language "id_ref")
    ++ "\">" ++ jsToString (getField language "language") ++ "</a><p class=\"description\">"
    ++ jsToString (getField language "details") ++ "</p></div></div> ")

/-- `renderLanguagesCV` (lines 2758–2819): container resolved before the
title writes. -/
def renderLanguagesCV (languagesData : JValue) : RProg :=
  if !(truthy languagesData && arrayOfObjects (getField languagesData "languages")) then .skip else
  .whenPres .lgSection (.whenPres .lgCvRow
    (let sectionInfo := getField languagesData "section_info"
     .seq (.whenPres .lgCvTitleH2
            (if truthy sectionInfo
             then .setSlot .lgCvTitleH2 (sectionHeadHTML sectionInfo
               " <a href=\"languages-details.html\"><i class=\"bx bx-link\"></i></a>")
             else .skip))
      (.seq (.whenPres .lgCvDescP
             (if truthy sectionInfo then .setSlot .lgCvDescP (jsToString (getField sectionInfo "details")) else .skip))
       (match jsElems (getField languagesData "languages") with
        | .error _ => .throwE
        | .ok languages => clearAppendTail .lgCvRow (buildConcat languageCvCardHTML languages)))))

/-- One test-score list item (lines 2877–2895); `.proficiency_breakdown`
on a null/undefined score raises a TypeError, and the `if (scoreText)`
guard always passes because every branch is non-empty. -/
def testScoreHTML (score : JValue) : Except Unit String := do
  let breakdown ← jsGetE score "proficiency_breakdown"
  let breakdownText := if truthy breakdown
    then "LRWS (" ++ jsToString (getField breakdown "listening") ++ ", "
      ++ jsToString (getField breakdown "reading") ++ ", "
      ++ jsToString (getField breakdown "writing") ++ ", "
      ++ jsToString (getField breakdown "speaking") ++ ")"
    else ""
  let scoreText :=
    if truthy (getField score "test_name") && truthy (getField score "test_score")
    then jsToString (getField score "test_name") ++ " (" ++ jsToString (getField score "test_score")
      ++ ") - " ++ breakdownText ++ " - " ++ jsToString (getField score "test_year")
    else if breakdownText ≠ "" then breakdownText
    else "(N/A)"
  pure ("<li>" ++ scoreText ++ "</li>")

/-- One details-page language block (lines 2873–2913). -/
def languageDetailHTML (language : JValue) : Except Unit String := do
  let ts ← jsGetE language "test_scores"
  let testDetailsHTML ←
    if truthy ts && jsLengthPos ts then do
      let scores ← jsElems ts
      let parts ← scores.mapM testScoreHTML
      pure (String.intercalate "" parts)
    else pure ""
  let finalTestDetails := if testDetailsHTML ≠ "" then "<ul>" ++ testDetailsHTML ++ "</ul>" else "(N/A)"
  pure ("<div id=\"" ++ jsToString (getField language "id_ref")
    ++ "\" class=\"general-info\" data-aos=\"fade-up\" data-aos-delay=\"200\"><h3>"
    ++ jsToString (getField language "language")
    ++ " </h3><p class=\"description\"><strong>Description: </strong> "
    ++ jsToString (getField language "details")
    ++ " <br><strong>Language Test Details: </strong> " ++ finalTestDetails ++ " <br></p></div> ")

/-- `renderLanguagesDetails` (lines 2828–2917). -/
def renderLanguagesDetails (languagesData : JValue) : RProg :=
  if !(truthy languagesData && arrayOfObjects (getField languagesData "languages")) then .skip else
  .whenPres .lgDetailsMain
    (.seq (detailsHeader (getField languagesData "section_info"))
     (.whenPres .lgDetailsRow
       (.seq (.setSlot .lgDetailsRow "")
        (buildThenSet .lgDetailsRow (do
          let languages ← jsElems (getField languagesData "languages")
          let parts ← languages.mapM languageDetailHTML
          pure (String.intercalate "" parts))))))

/-- One index-page portfolio card (lines 2965–2980). -/
def portfolioCardHTML (item : JValue) : Except Unit String := do
  let _ ← jsGetE item "title"
  let ic := getField item "icon_class"
  let icon := if truthy ic then jsToString ic else "bi-images"
  pure ("<div class=\"col-lg-4 col-md-6 service-item d-flex\" data-aos=\"fade-up\" data-aos-delay=\"100\"><div class=\"icon flex-shrink-0\"><i class=\""
    ++ icon ++ "\"></i></div><div><h4 class=\"title\"><a href=\"portfolios-details.html#"
    ++ jsToString (getField item "id_ref") ++ "\" class=\"stretched-link\">"
    ++ jsToString (getField item "title") ++ "</a></h4><p class=\"description\">"
    ++ jsToString (getField item "description")
    ++ "</p><p class=\"mt-2\"><a target=\"_blank\" href=\"" ++ jsToString (getField item "portfolio_url")
    ++ "\" style=\"font-size: smaller;\"><i class=\"bx bx-link-external\"></i> View on GitHub</a></p></div></div> ")

/-- `renderPortfolios` (lines 2926–2982). -/
def renderPortfolios (portfoliosData : JValue) : RProg :=
  if !(truthy portfoliosData && arrayOfObjects (getField portfoliosData "portfolios")) then .skip else
  .whenPres .pfSection (.whenPres .pfTitleContainer (.whenPres .pfRow
    (let sectionInfo := getField portfoliosData "section_info"
     .seq (.whenPres .pfTitleH2
            (if truthy sectionInfo
             then .setSlot .pfTitleH2 (sectionHeadHTML sectionInfo
               " <a href=\"portfolios-details.html\"><i class=\"bx bx-link\"></i></a>")
             else .skip))
      (.seq (.whenPres .pfDescH6
             (if truthy sectionInfo then .setSlot .pfDescH6 (jsToString (getField sectionInfo "details")) else .skip))
       (match jsElems (getField portfoliosData "portfolios") with
        | .error _ => .throwE
        | .ok items => clearThenAppend .pfRow (buildConcat portfolioCardHTML items))))))

/-- One CV portfolio card (lines 3029–3042). -/
def portfolioCvCardHTML (item : JValue) : Except Unit String := do
  let pu ← jsGetE item "portfolio_url"
  let ic := getField item "icon_class"
  let icon := if truthy ic then jsToString ic else "bi-images"
  pure ("<div class=\"col-lg-4 col-md-6 service-item d-flex\"><div class=\"icon flex-shrink-0\"><i class=\""
    ++ icon ++ "\"></i></div><div><a href=\"portfolios-details.html#"
    ++ jsToString (getField item "id_ref") ++ "\">" ++ jsToString (getField item "title")
    ++ "</a><p class=\"description\">" ++ jsToString (getField item "description")
    ++ "<br><a target=\"_blank\" href=\"" ++ jsToString pu
    ++ "\">View on GitHub <i class=\"bx bx-link-external\"></i></a></p></div></div> ")

/-- `renderPortfoliosCV` (lines 2991–3047): container resolved before the
title writes. -/
def renderPortfoliosCV (portfoliosData : JValue) : RProg :=
  if !(truthy portfoliosData && arrayOfObjects (getField portfoliosData "portfolios")) then .skip else
  .whenPres .pfSection (.whenPres .pfCvRow
    (let sectionInfo := getField portfoliosData "section_info"
     .seq (.whenPres .pfCvTitleH2
            (if truthy sectionInfo
             then .setSlot .pfCvTitleH2 (sectionHeadHTML sectionInfo
               " <a href=\"portfolios-details.html\"><i class=\"bx bx-link\"></i></a>")
             else .skip))
      (.seq (.whenPres .pfCvDescP
             (if truthy sectionInfo then .setSlot .pfCvDescP (jsToString (getField sectionInfo "details")) else .skip))
       (match jsElems (getField portfoliosData "portfolios") with
        | .error _ => .throwE
        | .ok items => clearAppendTail .pfCvRow (buildConcat portfolioCvCardHTML items)))))

/-- One details-page portfolio block (lines 3102–3114). -/
def portfolioDetailHTML (item : JValue) : Except Unit String := do
  let t ← jsGetE item "title"
  pure ("<div id=\"" ++ jsToString (getField item "id_ref")
    ++ "\" class=\"general-info\" data-aos=\"fade-up\" data-aos-delay=\"200\"><h3>" ++ jsToString t
    ++ " </h3><p class=\"description\"><strong>Platform: </strong> GitHub <br><strong>Description: </strong> "
    ++ jsToString (getField item "description")
    ++ " <br><strong>Link: </strong> <a target=\"_blank\" href=\"" ++ jsToString (getField item "portfolio_url")
    ++ "\">" ++ jsToString (getField item "portfolio_url")
    ++ " <i class=\"bx bx-link-external\"></i></a> <br></p></div> ")

/-- `renderPortfoliosDetails` (lines 3056–3118). -/
def renderPortfoliosDetails (portfoliosData : JValue) : RProg :=
  if !(truthy portfoliosData && arrayOfObjects (getField portfoliosData "portfolios")) then .skip else
  .whenPres .pfDetailsMain
    (.seq (detailsHeader (getField portfoliosData "section_info"))
     (.whenPres .pfDetailsRow
       (.seq (.setSlot .pfDetailsRow "")
        (buildThenSet .pfDetailsRow (do
          let items ← jsElems (getField portfoliosData "portfolios")
          let parts ← items.mapM portfolioDetailHTML
          pure (String.intercalate "" parts))))))

/-- One index-page volunteering card (lines 3166–3178). -/
def volunteeringCardHTML (item : JValue) : Except Unit String := do
  let ic ← jsGetE item "icon_class"
  let icon := if truthy ic then jsToString ic else "bx bxs-donate-heart"
  pure ("<div class=\"col-lg-4 col-md-6 service-item d-flex\" data-aos=\"fade-up\" data-aos-delay=\"100\"><div class=\"icon flex-shrink-0\"><i class=\""
    ++ icon ++ "\"></i></div><div><h4 class=\"title\"><a href=\"volunteerings-details.html#"
    ++ jsToString (getField item "id_ref") ++ "\" class=\"stretched-link\">"
    ++ jsToString (getField item "title") ++ "</a></h4><p class=\"description\">"
    ++ jsToString (getField item "summary_text") ++ "</p></div></div> ")

/-- `renderVolunteerings` (lines 3127–3180). -/
def renderVolunteerings (volunteeringsData : JValue) : RProg :=
  if !(truthy volunteeringsData && arrayOfObjects (getField volunteeringsData "volunteerings")) then .skip else
  .whenPres .vlSection (.whenPres .vlTitleContainer (.whenPres .vlRow
    (let sectionInfo := getField volunteeringsData "section_info"
     .seq (.whenPres .vlTitleH2
            (if truthy sectionInfo
             then .setSlot .vlTitleH2 (sectionHeadHTML sectionInfo
               " <a href=\"volunteerings-details.html\"><i class=\"bx bx-link\"></i></a>")
             else .skip))
      (.seq (.whenPres .vlDescH6
             (if truthy sectionInfo then .setSlot .vlDescH6 (jsToString (getField sectionInfo "details")) else .skip))
       (match jsElems (getField volunteeringsData "volunteerings") with
        | .error _ => .throwE
        | .ok items => clearThenAppend .vlRow (buildConcat volunteeringCardHTML items))))))

/-- One CV volunteering card (lines 3227–3239). -/
def volunteeringCvCardHTML (item : JValue) : Except Unit String := do
  let st ← jsGetE item "summary_text"
  let ic := getField item "icon_class"
  let icon := if truthy ic then jsToString ic else "bx bxs-donate-heart"
  pure ("<div class=\"col-lg-4 col-md-6 service-item d-flex\"><div class=\"icon flex-shrink-0\"><i class=\""
    ++ icon ++ "\"></i></div><div><a href=\"volunteerings-details.html#"
    ++ jsToString (getField item "id_ref") ++ "\">" ++ jsToString (getField item "title")
    ++ "</a><p class=\"description\">" ++ jsToString st ++ "</p></div></div> ")

/-- `renderVolunteeringsCV` (lines 3189–3244): container resolved before
the title writes. -/
def renderVolunteeringsCV (volunteeringsData : JValue) : RProg :=
  if !(truthy volunteeringsData && arrayOfObjects (getField volunteeringsData "volunteerings")) then .skip else
  .whenPres .vlSection (.whenPres .vlCvRow
    (let sectionInfo := getField volunteeringsData "section_info"
     .seq (.whenPres .vlCvTitleH2
            (if truthy sectionInfo
             then .setSlot .vlCvTitleH2 (sectionHeadHTML sectionInfo
               " <a href=\"volunteerings-details.html\"><i class=\"bx bx-link\"></i></a>")
             else .skip))
      (.seq (.whenPres .vlCvDescP
             (if truthy sectionInfo then .setSlot .vlCvDescP (jsToString (getField sectionInfo "details")) else .skip))
       (match jsElems (getField volunteeringsData "volunteerings") with
        | .error _ => .throwE
        | .ok items => clearAppendTail .vlCvRow (buildConcat volunteeringCvCardHTML items)))))

/-- One details-page volunteering block (lines 3297–3343). -/
def volunteeringDetailHTML (item : JValue) : Except Unit String := do
  let dtl ← jsGetE item "details"
  let itemDetails := if truthy dtl then dtl else .obj []
  let cause := getField itemDetails "cause"
  let org := getField item "organization"
  let df := getField itemDetails "description_full"
  let linkRow := if truthy (getField itemDetails "url_link")
    then "<strong>Link:</strong> <a target=\"_blank\" href=\"" ++ jsToString (getField itemDetails "url_link")
      ++ "\">" ++ jsToString (getField itemDetails "url_link")
      ++ " <i class=\"bx bx-link-external\"></i></a> <br>"
    else ""
  let period := if truthy (getField itemDetails "period") then jsToString (getField itemDetails "period")
    else if truthy (getField item "timeframe_details") then jsToString (getField item "timeframe_details")
    else "N/A"
  let descriptionHTML := "<p class=\"description\" style=\"margin-top: 0;\"><strong>Involvement:</strong> "
    ++ jsToString (getField item "summary_text") ++ " <br><strong>Cause:</strong> "
    ++ (if truthy cause then jsToString cause else "N/A") ++ " <br><strong>Organisation:</strong> "
    ++ (if truthy org then jsToString org else "N/A") ++ " <br><strong>Description:</strong> "
    ++ (if truthy df then jsToString df else "N/A") ++ " <br>" ++ linkRow
    ++ "<strong>Period:</strong> " ++ period ++ " <br></p>"
  let contentColumns := if truthy (getField itemDetails "image_path")
    then "<div class=\"col-lg-12 mb-3\"><img src=\"" ++ jsToString (getField itemDetails "image_path")
      ++ "\" class=\"img-fluid\" alt=\"Volunteering Image\" style=\"max-width: 70%; height: auto; display: block;\"></div><div class=\"col-lg-12\">"
      ++ descriptionHTML ++ "</div>"
    else "<div class=\"col-lg-12\">" ++ descriptionHTML ++ "</div>"
  pure ("<div id=\"" ++ jsToString (getField item "id_ref")
    ++ "\" class=\"general-info\" data-aos=\"fade-up\" data-aos-delay=\"200\"><h3>"
    ++ jsToString (getField item "title") ++ " </h3><div class=\"row\">" ++ contentColumns ++ "</div></div> ")

/-- `renderVolunteeringsDetails` (lines 3253–3347). -/
def renderVolunteeringsDetails (volunteeringsData : JValue) : RProg :=
  if !(truthy volunteeringsData && arrayOfObjects (getField volunteeringsData "volunteerings")) then .skip else
  .whenPres .vlDetailsMain
    (.seq (detailsHeader (getField volunteeringsData "section_info"))
     (.whenPres .vlDetailsRow
       (.seq (.setSlot .vlDetailsRow "")
        (buildThenSet .vlDetailsRow (do
          let items ← jsElems (getField volunteeringsData "volunteerings")
          let parts ← items.mapM volunteeringDetailHTML
          pure (String.intercalate "" parts))))))

/-- `categoryKey.charAt(0).toUpperCase() + categoryKey.slice(1)`. -/
def capitalizeFirst (s : String) : String :=
  match s.toList with
  | [] => ""
  | c :: rest => String.mk (c.toUpper :: rest)

/-- One publications resume item of the index page (lines 3398–3413). -/
def pubResumeItemHTML (item : JValue) : Except Unit String := do
  let jl ← jsGetE item "journal_link"
  let link := if truthy jl then jl else getField item "conference_link"
  let linkDisplay ←
    if truthy link then do
      let tailPart ← jsSplitLast link "/"
      pure ("<a target=\"_blank\" href=\"" ++ jsToString link ++ "\">" ++ tailPart
        ++ " <i class=\"bx bx-link-external\"></i> </a>")
    else pure "N/A"
  pure ("<div class=\"resume-item pb-0\" data-aos=\"fade-up\" data-aos-delay=\"200\"><h4>"
    ++ jsToString (getField item "title") ++ " </h4><div id=\"" ++ jsToString (getField item "id_ref")
    ++ "\">" ++ jsToString (getField item "citation_text")
    ++ "<transparent_button onclick=\"CopyToClipboard('" ++ jsToString (getField item "id_ref")
    ++ "')\"><i class=\"bx bx-copy\"></i></transparent_button></div><p><strong>DOI/Link:</strong> "
    ++ linkDisplay ++ "</p></div>")

/-- The two-column category build of `renderPublications`
(lines 3415–3451): the fixed `['journals','conferences','posters']` keys,
each appended to the column its `column` field names (anything else is
dropped), with the margin-top of a category header depending on whether
its column already has content. -/
def pubColumns (pubs : JValue) : List String → String → String →
    Except Unit (String × String)
  | [], l, r => .ok (l, r)
  | categoryKey :: rest, l, r => do
    let categoryData := getField pubs categoryKey
    let items := getField categoryData "items"
    if !truthy categoryData || !truthy items
      || (match items with | .arr xs => xs.isEmpty | _ => false) then
      pubColumns pubs rest l r
    else do
      let elems ← jsElems items
      let itemCount := elems.length
      let categoryTitle := capitalizeFirst categoryKey
      let colIsLeft := jsStrEq (getField categoryData "column") "left"
      let columnContentReference := if colIsLeft then l else r
      let marginTopStyle := if columnContentReference = "" || categoryKey = "posters" then "0" else "30px"
      let parts ← elems.mapM pubResumeItemHTML
      let categoryHTML := "<h3 class=\"resume-title\" style=\"margin-top: " ++ marginTopStyle
        ++ ";\"><a href=\"publications-details.html#pub_" ++ categoryKey ++ "\"><i class=\""
        ++ jsToString (getField categoryData "icon_class") ++ "\"></i> " ++ categoryTitle
        ++ " (" ++ toString itemCount ++ ") <i class=\"bx bx-link\"></i></a></h3>"
        ++ String.intercalate "" parts
      if colIsLeft then pubColumns pubs rest (l ++ categoryHTML) r
      else if jsStrEq (getField categoryData "column") "right" then pubColumns pubs rest l (r ++ categoryHTML)
      else pubColumns pubs rest l r

/-- `renderPublications` (lines 3357–3465).  The content row is cleared
(line 3380) before the section title writes. -/
def renderPublications (publicationsData : JValue) : RProg :=
  if !(truthy publicationsData && truthy (getField publicationsData "publications")) then .skip else
  .whenPres .pbSection (.whenPres .pbTitleContainer (.whenPres .pbContent
    (let sectionInfo := getField publicationsData "section_info"
     let pubs := getField publicationsData "publications"
     .seq (.setSlot .pbContent "")
      (.seq (.whenPres .pbTitleH2
             (if truthy sectionInfo
              then .setSlot .pbTitleH2 (sectionHeadHTML sectionInfo
                " <a href=\"publications-details.html\"><i class=\"bx bx-link\"></i></a>")
              else .skip))
       (.seq (.whenPres .pbDescH6
              (if truthy sectionInfo then .setSlot .pbDescH6 (jsToString (getField sectionInfo "details")) else .skip))
        (match pubColumns pubs ["journals", "conferences", "posters"] "" "" with
         | .error _ => .throwE
         | .ok lr =>
           let finalHTML :=
             (if lr.1 ≠ "" then "<div class=\"col-lg-6\" data-aos=\"fade-up\" data-aos-delay=\"100\">" ++ lr.1 ++ "</div>" else "")
             ++ (if lr.2 ≠ "" then "<div class=\"col-lg-6\" data-aos=\"fade-up\" data-aos-delay=\"200\">" ++ lr.2 ++ "</div>" else "")
           .setSlot .pbContent finalHTML))))))

/-- `Object.keys` of an object value (insertion order); primitives and
arrays are not iterated by the publications category loops in practice. -/
def objKeys : JValue → List String
  | .obj fields => fields.map Prod.fst
  | _ => []

/-- One CV publications table row (lines 3517–3533). -/
def pubCvRowHTML (item : JValue) : Except Unit String := do
  let jl ← jsGetE item "journal_link"
  let link := if truthy jl then jl else getField item "conference_link"
  let linkDisplay ←
    if truthy link then do
      let tailPart ← jsSplitLast link "/"
      pure ("<a target=\"_blank\" href=\"" ++ jsToString link ++ "\">" ++ tailPart
        ++ " <i class=\"bx bx-link-external\"></i> </a>")
    else pure "N/A"
  pure ("<tr><td><h6>" ++ jsToString (getField item "title") ++ "</h6><div id=\""
    ++ jsToString (getField item "id_ref") ++ "_cv\">" ++ jsToString (getField item "citation_text")
    ++ "<transparent_button onclick=\"CopyToClipboard('" ++ jsToString (getField item "id_ref")
    ++ "_cv')\"><i class=\"bx bx-copy\"></i></transparent_button></div><p><strong>DOI/Link:</strong> "
    ++ linkDisplay ++ "</p></td></tr>")

/-- `renderCategoryTable` of `renderPublicationsCV` (lines 3536–3565). -/
def pubCvCategoryHTML (pubs : JValue) (key : String) : Except Unit String := do
  let categoryData := getField pubs key
  if truthy categoryData
     && (match categoryData with | .obj _ => true | .arr _ => true | .null => true | _ => false)
     && truthy (getField categoryData "items") then
    let items := getField categoryData "items"
    if (match items with | .arr xs => xs.isEmpty | _ => false) then pure ""
    else do
      let elems ← jsElems items
      let rows ← elems.mapM pubCvRowHTML
      pure ("<table><thead><tr><td><h6><a href=\"publications-details.html#pub_" ++ key
        ++ "\"><i class=\"" ++ jsToString (getField categoryData "icon_class") ++ "\"></i> "
        ++ capitalizeFirst key ++ " (" ++ toString elems.length
        ++ ") <i class=\"bx bx-link\"></i></a></h6></td></tr></thead><tbody>"
        ++ String.intercalate "" rows ++ "</tbody></table>")
  else pure ""

/-- `renderPublicationsCV` (lines 3476–3581): container check before the
title write; the description write is commented out in the source. -/
def renderPublicationsCV (publicationsData : JValue) : RProg :=
  if !(truthy publicationsData && truthy (getField publicationsData "publications")) then .skip else
  .whenPres .pbSection (.whenPres .pbCvRow
    (let sectionInfo := getField publicationsData "section_info"
     let pubs := getField publicationsData "publications"
     .seq (.whenPres .pbCvTitleH2
            (if truthy sectionInfo
             then .setSlot .pbCvTitleH2 (sectionHeadHTML sectionInfo
               " <a href=\"publications-details.html\"><i class=\"bx bx-link\"></i></a>")
             else .skip))
      (.seq (.setSlot .pbCvRow "")
       (match (do
          let parts ← (objKeys pubs).mapM (pubCvCategoryHTML pubs)
          pure (String.intercalate "" parts) : Except Unit String) with
        | .error _ => .throwE
        | .ok h => .setSlot .pbCvRow (h ++ "<p></p>")))))

/-- One details-page publication item (lines 3639–3661);
`item.abstract.replace` raises a TypeError on a non-string abstract. -/
def pubDetailItemHTML (ty sub : JValue) (item : JValue) : Except Unit String := do
  let jl ← jsGetE item "journal_link"
  let link := if truthy jl then jl else getField item "conference_link"
  let linkDisplay ←
    if truthy link then do
      let tailPart ← jsSplitLast link "/"
      pure ("<a target=\"_blank\" href=\"" ++ jsToString link ++ "\">" ++ tailPart
        ++ " <i class=\"bx bx-link-external\"></i> </a>")
    else pure "N/A"
  let abstractCleaned ← jsReplaceAllE (getField item "abstract") "\n" "<br>"
  pure ("<div id=\"" ++ jsToString (getField item "id_ref")
    ++ "\" class=\"general-info\" data-aos=\"fade-up\" data-aos-delay=\"200\"><h3>"
    ++ jsToString (getField item "title") ++ " </h3><p class=\"description\"><br><strong>Type: </strong> "
    ++ jsToString ty ++ "<br><strong>Sub-Type: </strong> " ++ jsToString sub
    ++ "<br><strong>Title: </strong> " ++ jsToString (getField item "title")
    ++ "<br><strong>Abstract: </strong> " ++ abstractCleaned
    ++ "<br><strong>Citation: </strong></p><div id=\"" ++ jsToString (getField item "id_ref")
    ++ "_citation\">" ++ jsToString (getField item "citation_text")
    ++ "<transparent_button onclick=\"CopyToClipboard('" ++ jsToString (getField item "id_ref")
    ++ "_citation')\"> <i class=\"bx bx-copy\"></i> </transparent_button></div><p><strong>DOI/Link:</strong> "
    ++ linkDisplay ++ " </p></div>")

/-- `renderCategoryBlock` of `renderPublicationsDetails`
(lines 3664–3682). -/
def pubDetailCategoryHTML (pubs : JValue) (key : String) : Except Unit String := do
  let categoryData := getField pubs key
  if truthy categoryData
     && (match categoryData with | .obj _ => true | .arr _ => true | .null => true | _ => false)
     && truthy (getField categoryData "items") then
    let items := getField categoryData "items"
    if (match items with | .arr xs => xs.isEmpty | _ => false) then pure ""
    else do
      let elems ← jsElems items
      let parts ← elems.mapM fun item => do
        let h ← pubDetailItemHTML (getField categoryData "type") (getField categoryData "sub_type") item
        pure ("<div class=\"col-lg-12\">" ++ h ++ "</div>")
      pure ("<div class=\"col-lg-12\"><div id=\"pub_" ++ key
        ++ "\" class=\"general-cat\" data-aos=\"fade-up\" data-aos-delay=\"200\"><h5><i class=\""
        ++ jsToString (getField categoryData "icon_class") ++ "\"></i> " ++ capitalizeFirst key
        ++ " (" ++ toString elems.length ++ ") </h5></div></div>" ++ String.intercalate "" parts)
  else pure ""

/-- The wrapper `renderPublicationsDetails` writes into its main container
(line 3626) before re-querying the fresh row it just created. -/
def pubDetailsWrapper (inner : String) : String :=
  "<div class=\"container\"><div id=\"dynamic-publications-row\" class=\"row\">" ++ inner ++ "</div></div>"

/-- `renderPublicationsDetails` (lines 3592–3693): targets
`#volunteeringDetails_main` (the ID present in that page's markup), wipes
it to a fresh wrapper, then fills the wrapper's row. -/
def renderPublicationsDetails (publicationsData : JValue) : RProg :=
  if !(truthy publicationsData && truthy (getField publicationsData "publications")) then .skip else
  .whenPres .vlDetailsMain
    (let pubs := getField publicationsData "publications"
     .seq (detailsHeader (getField publicationsData "section_info"))
      (.seq (.setSlot .vlDetailsMain (pubDetailsWrapper ""))
       (match (do
          let parts ← (objKeys pubs).mapM (pubDetailCategoryHTML pubs)
          pure (String.intercalate "" parts) : Except Unit String) with
        | .error _ => .throwE
        | .ok h => .setSlot .vlDetailsMain (pubDetailsWrapper h))))

/-! ## The Page Dispatcher (`initializeSite`, site-loader.js lines
3792–3981) -/

/-- The ten fixed detail-page variants (lines 3880–3908). -/
inductive DetailPage where
  | skillsTools | honorsAwards | courses | projects | memberships
  | sessionsEvents | languages | portfolios | volunteerings | publications
deriving DecidableEq

/-- The closed set of page variants the dispatcher distinguishes. -/
inductive PageKind where
  | cv
  | details (d : DetailPage)
  | index
deriving DecidableEq

/-- The section-dispatch if/else-chain of `initializeSite` (lines
3832–3960), as a pure function of the final path segment: the printable-CV
name first, then the ten detail-page names, then the default/index
fallback for everything else (including `''` and `'index.html'`). -/
def classify (fileName : String) : PageKind :=
  if fileName = "printable_cv.html" then .cv
  else if fileName = "skillsAndTools-details.html" then .details .skillsTools
  else if fileName = "honorsAndAwards-details.html" then .details .honorsAwards
  else if fileName = "coursesTrainingsAndCertificates-details.html" then .details .courses
  else if fileName = "projects-details.html" then .details .projects
  else if fileName = "memberships-details.html" then .details .memberships
  else if fileName = "sessionsAndEvents-details.html" then .details .sessionsEvents
  else if fileName = "languages-details.html" then .details .languages
  else if fileName = "portfolios-details.html" then .details .portfolios
  else if fileName = "volunteerings-details.html" then .details .volunteerings
  else if fileName = "publications-details.html" then .details .publications
  else .index

/-- `const mainPages = ['index.html', '', 'printable_cv.html']`
(line 3802). -/
def mainPages : List String := ["index.html", "", "printable_cv.html"]

/-- `menuToRender.find(item => item.label.startsWith('Home'))`
(line 3808): index of the first matching entry; `.startsWith` on a
non-string label raises a TypeError. -/
def findHomeIdx : List JValue → Except Unit (Option Nat)
  | [] => .ok none
  | item :: rest => do
    let lbl ← jsGetE item "label"
    let starts ← jsStartsWith lbl "Home"
    if starts then pure (some 0)
    else do
      let r ← findHomeIdx rest
      pure (r.map (· + 1))

/-- Replace the value bound to an existing key of the store object. -/
def storeSet (st : Store) (k : String) (v : JValue) : Store :=
  st.map fun kv => if kv.1 = k then (k, v) else kv

/-- The menu-selection phase (lines 3801–3821).  Both branches dereference
`SITE_DATA.site.navigation`, throwing a TypeError when the store has no
usable `site` entry.  On the printable-CV page the `Home` entry's `url` is
assigned `'./index.html#about'` — `homeItem` aliases into the store, so
the assignment mutates the Loaded Store; the result is the updated store
together with the selected `menuToRender` value. -/
def selectMenu (fileName : String) (store : Store) : Except Unit (Store × JValue) :=
  let site := storeGet store "site"
  if mainPages.contains fileName then do
    let nav ← jsGetE site "navigation"
    let mainMenu ← jsGetE nav "main_menu"
    if fileName = "printable_cv.html" then do
      let items ← jsElems mainMenu
      let idx ← findHomeIdx items
      match idx with
      | none => pure (store, mainMenu)
      | some i =>
        let items2 := items.set i (setField (items.getD i .undef) "url" (.str "./index.html#about"))
        let menu2 := JValue.arr items2
        let site2 := setField site "navigation" (setField nav "main_menu" menu2)
        pure (storeSet store "site" site2, menu2)
    else pure (store, mainMenu)
  else do
    let nav ← jsGetE site "navigation"
    let dm ← jsGetE nav "details_menu"
    pure (store, dm)

/-- The names of the render calls `initializeSite` can issue. -/
inductive RenderCall where
  | updateDocumentMetadata | renderHeader | renderMenuFooter | renderPageFooter
  | renderNavigation | renderNavDropdowns
  | renderHero | renderAbout | renderKeyMetrics | renderEducations
  | renderProfessionalExperiences | renderExpertiseAndAchievements | renderSkillsTools
  | renderHonorsAwards | renderCoursesTrainingsCertificates | renderProjects
  | renderMemberships | renderSessionsEvents | renderLanguages | renderPortfolios
  | renderVolunteerings | renderPublications
  | renderAboutCV | renderKeyMetricsCV | renderEducationsCV | renderProfessionalExperiencesCV
  | renderExpertiseAndAchievementsCV | renderSkillsToolsCV | renderHonorsAwardsCV
  | renderCoursesTrainingsCertificatesCV | renderProjectsCV | renderMembershipsCV
  | renderSessionsEventsCV | renderLanguagesCV | renderPortfoliosCV | renderVolunteeringsCV
  | renderPublicationsCV
  | renderSkillsToolsDetails | renderHonorsAwardsDetails | renderCoursesTrainingsCertificatesDetails
  | renderProjectsDetails | renderMembershipsDetails | renderSessionsEventsDetails
  | renderLanguagesDetails | renderPortfoliosDetails | renderVolunteeringsDetails
  | renderPublicationsDetails
deriving DecidableEq

/-- The core render calls every variant issues, in source order (lines
3823–3829).  Reaching them requires `SITE_DATA.site.navigation` to have
been dereferenced successfully, so the further `site.…` argument reads
cannot throw. -/
def coreCallProgs (store : Store) (menuToRender : JValue) (currentYear : Int) :
    List (RenderCall × RProg) :=
  let site := storeGet store "site"
  [ (.updateDocumentMetadata, updateDocumentMetadata (getField site "site_info"))
  , (.renderHeader, renderHeader (storeGet store "personal_info") site)
  , (.renderMenuFooter, renderMenuFooter (getField site "footer_meta") (getField site "assets") currentYear)
  , (.renderPageFooter, renderPageFooter (getField site "footer_meta"))
  , (.renderNavigation, renderNavigation (.obj [("main_menu", menuToRender)]))
  , (.renderNavDropdowns, renderNavDropdowns) ]

/-- The page-specific render calls (lines 3832–3960).  The publications
detail page guards its single call with `if (SITE_DATA.publications)`
(line 3908). -/
def variantCallProgs (store : Store) : PageKind → List (RenderCall × RProg)
  | .cv =>
    [ (.renderAboutCV, renderAboutCV store (storeGet store "personal_info"))
    , (.renderKeyMetricsCV, renderKeyMetricsCV (storeGet store "key_metrics"))
    , (.renderEducationsCV, renderEducationsCV (storeGet store "education"))
    , (.renderProfessionalExperiencesCV, renderProfessionalExperiencesCV (storeGet store "professional_experience"))
    , (.renderExpertiseAndAchievementsCV, renderExpertiseAndAchievementsCV (storeGet store "expertise_achievements"))
    , (.renderSkillsToolsCV, renderSkillsToolsCV (storeGet store "skills"))
    , (.renderHonorsAwardsCV, renderHonorsAwardsCV (storeGet store "honors_awards"))
    , (.renderCoursesTrainingsCertificatesCV, renderCoursesTrainingsCertificatesCV (storeGet store "courses_trainings_certificates"))
    , (.renderProjectsCV, renderProjectsCV (storeGet store "projects"))
    , (.renderMembershipsCV, renderMembershipsCV (storeGet store "memberships"))
    , (.renderSessionsEventsCV, renderSessionsEventsCV (storeGet store "sessions_events"))
    , (.renderLanguagesCV, renderLanguagesCV (storeGet store "languages"))
    , (.renderPortfoliosCV, renderPortfoliosCV (storeGet store "portfolios"))
    , (.renderVolunteeringsCV, renderVolunteeringsCV (storeGet store "volunteerings"))
    , (.renderPublicationsCV, renderPublicationsCV (storeGet store "publications")) ]
  | .details .skillsTools => [(.renderSkillsToolsDetails, renderSkillsToolsDetails (storeGet store "skills"))]
  | .details .honorsAwards => [(.renderHonorsAwardsDetails, renderHonorsAwardsDetails (storeGet store "honors_awards"))]
  | .details .courses => [(.renderCoursesTrainingsCertificatesDetails, renderCoursesTrainingsCertificatesDetails (storeGet store "courses_trainings_certificates"))]
  | .details .projects => [(.renderProjectsDetails, renderProjectsDetails (storeGet store "projects"))]
  | .details .memberships => [(.renderMembershipsDetails, renderMembershipsDetails (storeGet store "memberships"))]
  | .details .sessionsEvents => [(.renderSessionsEventsDetails, renderSessionsEventsDetails (storeGet store "sessions_events"))]
  | .details .languages => [(.renderLanguagesDetails, renderLanguagesDetails (storeGet store "languages"))]
  | .details .portfolios => [(.renderPortfoliosDetails, renderPortfoliosDetails (storeGet store "portfolios"))]
  | .details .volunteerings => [(.renderVolunteeringsDetails, renderVolunteeringsDetails (storeGet store "volunteerings"))]
  | .details .publications =>
      if truthy (storeGet store "publications")
      then [(.renderPublicationsDetails, renderPublicationsDetails (storeGet store "publications"))]
      else []
  | .index =>
    [ (.renderHero, renderHero (storeGet store "personal_info"))
    , (.renderAbout, renderAbout store (storeGet store "personal_info"))
    , (.renderKeyMetrics, renderKeyMetrics (storeGet store "key_metrics"))
    , (.renderEducations, renderEducations (storeGet store "education"))
    , (.renderProfessionalExperiences, renderProfessionalExperiences (storeGet store "professional_experience"))
    , (.renderExpertiseAndAchievements, renderExpertiseAndAchievements (storeGet store "expertise_achievements"))
    , (.renderSkillsTools, renderSkillsTools (storeGet store "skills"))
    , (.renderHonorsAwards, renderHonorsAwards (storeGet store "honors_awards"))
    , (.renderCoursesTrainingsCertificates, renderCoursesTrainingsCertificates (storeGet store "courses_trainings_certificates"))
    , (.renderProjects, renderProjects (storeGet store "projects"))
    , (.renderMemberships, renderMemberships (storeGet store "memberships"))
    , (.renderSessionsEvents, renderSessionsEvents (storeGet store "sessions_events"))
    , (.renderLanguages, renderLanguages (storeGet store "languages"))
    , (.renderPortfolios, renderPortfolios (storeGet store "portfolios"))
    , (.renderVolunteerings, renderVolunteerings (storeGet store "volunteerings"))
    , (.renderPublications, renderPublications (storeGet store "publications")) ]

/-- The complete render phase: core calls then the variant's calls. -/
def dispatchProgs (store : Store) (fileName : String) (menuToRender : JValue)
    (currentYear : Int) : List (RenderCall × RProg) :=
  coreCallProgs store menuToRender currentYear ++ variantCallProgs store (classify fileName)

/-- Result of running a sequence of named render calls. -/
structure PhaseOut where
  trace : List RenderCall
  dom : Dom
  threw : Bool

/-- Invoke the calls in order; a call that throws is still in the trace
(it executed), and aborts the rest. -/
def runCalls : List (RenderCall × RProg) → Dom → PhaseOut
  | [], d => ⟨[], d, false⟩
  | (c, p) :: rest, d =>
      let r := runP p d
      if r.2 then ⟨[c], r.1, true⟩
      else
        let o := runCalls rest r.1
        ⟨c :: o.trace, o.dom, o.threw⟩

/-- Which of the three re-init hooks exist as functions in the global
environment (`typeof h === 'function'`). -/
structure HookEnv where
  typed : Bool
  aos : Bool
  pureCounter : Bool

/-- The three post-render hooks. -/
inductive Hook where
  | typed | aos | pureCounter
deriving DecidableEq

/-- Hook invocations (lines 3962–3974): each hook is called exactly when
present. -/
def hookInvocations (h : HookEnv) : List Hook :=
  (if h.typed then [.typed] else []) ++ (if h.aos then [.aos] else [])
    ++ (if h.pureCounter then [.pureCounter] else [])

/-- Whether a console message about the hook being missing is emitted:
only `initTypedAnimation` has a missing-branch `console.log`/`warn`
(lines 3967–3970); missing `initAOS` and `initPureCounter` are skipped
silently (lines 3973–3974). -/
def hookMissingLogged (h : HookEnv) : Hook → Bool
  | .typed => !h.typed
  | .aos => false
  | .pureCounter => false

/-- What the dispatch phase (everything after `loadAllData` returned) did. -/
structure DispatchOut where
  ran : Bool                     -- the `Object.keys(SITE_DATA).length > 0` gate passed
  trace : List RenderCall
  hookCalls : List Hook
  hookMissingLog : Hook → Bool
  store : Store
  dom : Dom
  threw : Bool                   -- a TypeError escaped `initializeSite`
  noticeShown : Bool             -- the dispatcher never writes the error notice

/-- The dispatch phase of `initializeSite` (lines 3795–3977): gate on the
store being non-empty, select the menu (possibly mutating the store),
run the core and variant render calls, then the hooks — unless a
TypeError escaped first. -/
def dispatch (store : Store) (pathName : String) (hooks : HookEnv)
    (currentYear : Int) (d : Dom) : DispatchOut :=
  if store.length > 0 then
    let fileName := lastSegment pathName
    match selectMenu fileName store with
    | .error _ =>
        { ran := true, trace := [], hookCalls := [], hookMissingLog := fun _ => false
        , store := store, dom := d, threw := true, noticeShown := false }
    | .ok sm =>
        let po := runCalls (dispatchProgs sm.1 fileName sm.2 currentYear) d
        if po.threw then
          { ran := true, trace := po.trace, hookCalls := [], hookMissingLog := fun _ => false
          , store := sm.1, dom := po.dom, threw := true, noticeShown := false }
        else
          { ran := true, trace := po.trace, hookCalls := hookInvocations hooks
          , hookMissingLog := hookMissingLogged hooks
          , store := sm.1, dom := po.dom, threw := false, noticeShown := false }
  else
    { ran := false, trace := [], hookCalls := [], hookMissingLog := fun _ => false
    , store := store, dom := d, threw := false, noticeShown := false }

/-- The error notice replaces the whole `document.body` (line 59): every
body element disappears; the `<title>` lives in the head and survives. -/
def wipeBody (d : Dom) : Dom :=
  fun s => if s = .docTitle then d s else none

/-- A whole page load: `initializeSite` (lines 3792–3978) =
`await loadAllData()` followed by the dispatch phase on whatever
`SITE_DATA` then contains (over the body the failure path may have
replaced with the notice). -/
structure InitOut where
  bodyNotice : Bool
  disp : DispatchOut

/-- `initializeSite`, modelled end to end. -/
def initSite (out : String → FetchOutcome) (written : String → Bool)
    (pathName : String) (hooks : HookEnv) (currentYear : Int) (d : Dom) : InitOut :=
  let L := loadAllData out written
  let d2 := if L.bodyReplaced then wipeBody d else d
  { bodyNotice := L.bodyReplaced
  , disp := dispatch L.store pathName hooks currentYear d2 }

/-! ## Normal form for render programs

Every render program only writes slot payloads that are functions of its
compiled-in data, guarded by slot presence; so its whole DOM effect is an
`overwrite` by a patch determined by the presence profile, which writes
preserve.  Running any program (or call sequence) twice is therefore the
same as running it once — the engine behind the re-render round-trip
property. -/

/-- A set of slot writes, applied to the slots that are present. -/
def Patch : Type := Slot → Option String

/-- Apply a patch: present slots take the patched payload, absent slots
stay absent, unpatched slots are untouched. -/
def overwrite (w : Patch) (d : Dom) : Dom := fun s =>
  match w s with
  | some v => (d s).map fun _ => v
  | none => d s

/-- Later patch wins. -/
def mergeP (w2 w1 : Patch) : Patch := fun s =>
  match w2 s with
  | some v => some v
  | none => w1 s

/-- The empty patch. -/
def emptyP : Patch := fun _ => none

/-- The one-slot patch. -/
def singleP (s : Slot) (v : String) : Patch := fun s2 => if s2 = s then some v else none

/-- A DOM transformer whose patch and error flag depend only on the
presence profile of the input DOM. -/
def PresDriven (f : Dom → Dom × Bool) : Prop :=
  ∃ w : (Slot → Bool) → Patch, ∃ e : (Slot → Bool) → Bool,
    ∀ d, f d = (overwrite (w (pres d)) d, e (pres d))

/-- The analogous normal form for a named call sequence, with its trace. -/
def CallsDriven (L : List (RenderCall × RProg)) : Prop :=
  ∃ T : (Slot → Bool) → List RenderCall,
  ∃ w : (Slot → Bool) → Patch,
  ∃ e : (Slot → Bool) → Bool,
    ∀ d, runCalls L d = ⟨T (pres d), overwrite (w (pres d)) d, e (pres d)⟩

/-! ## Concrete example values used by counterexamples and witnesses -/

/-- A minimal well-formed `site.json` value. -/
def exSite : JValue :=
  .obj [ ("navigation", .obj [("main_menu", .arr []), ("details_menu", .arr [])])
       , ("site_info", .obj []), ("footer_meta", .obj []), ("assets", .obj []) ]

/-- A fetch environment in which `personal_info.json` fails with a
non-success status while every other resource (including `site.json`)
succeeds. -/
def exOutcome : String → FetchOutcome := fun f =>
  if f = "personal_info.json" then .httpError
  else if f = "site.json" then .ok exSite
  else .ok (.obj [])

/-- A store holding only a `site` entry whose main menu has one `Home`
entry pointing at `#hero`. -/
def exStoreCv : Store :=
  [ ("site", .obj [ ("navigation", .obj
      [ ("main_menu", .arr [.obj [("label", .str "Home"), ("url", .str "#hero")]])
      , ("details_menu", .arr []) ]) ]) ]

/-- The `url` of the first main-menu entry of a store's `site` value. -/
def firstMainMenuUrl (st : Store) : JValue :=
  getField ((jsArr (getField (getField (storeGet st "site") "navigation") "main_menu")).getD 0 .undef) "url"

/-- Its string coercion (used to compare stores decidably). -/
def firstMainMenuUrlStr (st : Store) : String :=
  jsToString (firstMainMenuUrl st)

/-- A DOM in which every slot is present (with empty payload). -/
def domAll : Dom := fun _ => some ""

/-- A DOM in which every slot except `#hero`'s `<h2>` is present. -/
def domNoHeroH2 : Dom := fun s => if s = Slot.heroH2 then none else some ""

/-! ## Theorems: normal-form machinery -/

theorem overwrite_empty (d : Dom) : overwrite emptyP d = d := by
  funext s
  simp [overwrite, emptyP]

theorem pres_overwrite (w : Patch) (d : Dom) : pres (overwrite w d) = pres d := by
  funext s
  unfold pres overwrite
  cases w s <;> cases d s <;> simp

theorem overwrite_merge (w2 w1 : Patch) (d : Dom) :
    overwrite w2 (overwrite w1 d) = overwrite (mergeP w2 w1) d := by
  funext s
  unfold overwrite mergeP
  cases w2 s <;> cases w1 s <;> cases d s <;> simp

theorem mergeP_self (w : Patch) : mergeP w w = w := by
  funext s
  unfold mergeP
  cases w s <;> simp

theorem setDom_eq_overwrite (s : Slot) (v : String) (d : Dom) :
    setDom s v d = overwrite (singleP s v) d := by
  funext s2
  unfold setDom overwrite singleP
  by_cases h : s2 = s <;> simp [h]

theorem overwrite_single_absent (s : Slot) (v : String) (d : Dom) (h : d s = none) :
    overwrite (singleP s v) d = d := by
  funext s2
  unfold overwrite singleP
  by_cases h2 : s2 = s
  · simp [h2, h]
  · simp [h2]

/-- Every compiled render program is presence-driven. -/
theorem presDriven_runP (p : RProg) : PresDriven (runP p) := by
  induction p with
  | skip =>
      exact ⟨fun _ => emptyP, fun _ => false, fun d => by simp [runP, overwrite_empty]⟩
  | throwE =>
      exact ⟨fun _ => emptyP, fun _ => true, fun d => by simp [runP, overwrite_empty]⟩
  | setSlot s v =>
      exact ⟨fun _ => singleP s v, fun _ => false, fun d => by
        simp [runP, setDom_eq_overwrite]⟩
  | reqSlot s v =>
      refine ⟨fun _ => singleP s v, fun pr => !(pr s), fun d => ?_⟩
      by_cases h : (d s).isSome
      · simp [runP, h, setDom_eq_overwrite, pres]
      · have hn : d s = none := by
          cases hh : d s
          · rfl
          · rw [hh] at h; simp at h
        simp [runP, h, pres, overwrite_single_absent s v d hn]
  | whenPres s p ih =>
      obtain ⟨w, e, hw⟩ := ih
      refine ⟨fun pr => if pr s then w pr else emptyP,
              fun pr => if pr s then e pr else false, fun d => ?_⟩
      by_cases h : (d s).isSome
      · simpa [runP, h, pres] using hw d
      · simp [runP, h, pres, overwrite_empty]
  | seq p q ihp ihq =>
      obtain ⟨wp, ep, hp⟩ := ihp
      obtain ⟨wq, eq2, hq⟩ := ihq
      refine ⟨fun pr => if ep pr then wp pr else mergeP (wq pr) (wp pr),
              fun pr => if ep pr then true else eq2 pr, fun d => ?_⟩
      by_cases h : ep (pres d) = true
      · simp [runP, hp d, h]
      · have h2 := hq (overwrite (wp (pres d)) d)
        rw [pres_overwrite] at h2
        simp [runP, hp d, h, h2, overwrite_merge]

/-- Running a render program twice is running it once. -/
theorem runP_idem (p : RProg) (d : Dom) : runP p (runP p d).1 = runP p d := by
  obtain ⟨w, e, hw⟩ := presDriven_runP p
  have h1 := hw d
  have hfst : (runP p d).1 = overwrite (w (pres d)) d := by rw [h1]
  have hpres : pres (runP p d).1 = pres d := by rw [hfst, pres_overwrite]
  have h2 := hw (runP p d).1
  rw [hpres, hfst] at h2
  rw [hfst, h2, overwrite_merge, mergeP_self, h1]

/-- Every named call sequence is presence-driven, trace included. -/
theorem callsDriven (L : List (RenderCall × RProg)) : CallsDriven L := by
  induction L with
  | nil =>
      exact ⟨fun _ => [], fun _ => emptyP, fun _ => false, fun d => by
        simp [runCalls, overwrite_empty]⟩
  | cons cp rest ih =>
      obtain ⟨T, w, e, hw⟩ := ih
      obtain ⟨wp, ep, hp⟩ := presDriven_runP cp.2
      refine ⟨fun pr => if ep pr then [cp.1] else cp.1 :: T pr,
              fun pr => if ep pr then wp pr else mergeP (w pr) (wp pr),
              fun pr => if ep pr then true else e pr, fun d => ?_⟩
      obtain ⟨c, p⟩ := cp
      by_cases h : ep (pres d) = true
      · simp [runCalls, hp d, h]
      · have h2 := hw (overwrite (wp (pres d)) d)
        rw [pres_overwrite] at h2
        simp [runCalls, hp d, h, h2, overwrite_merge]

/-- Re-running a call sequence on the DOM it produced changes nothing:
same trace, same DOM, same error. -/
theorem runCalls_idem (L : List (RenderCall × RProg)) (d : Dom) :
    runCalls L (runCalls L d).dom = runCalls L d := by
  obtain ⟨T, w, e, hw⟩ := callsDriven L
  have h1 := hw d
  have hdom : (runCalls L d).dom = overwrite (w (pres d)) d := by rw [h1]
  have hpres : pres (runCalls L d).dom = pres d := by rw [hdom, pres_overwrite]
  have h2 := hw (runCalls L d).dom
  rw [hpres, hdom] at h2
  rw [hdom, h2, overwrite_merge, mergeP_self, h1]

/-! ## Theorems: the claims -/

/-- Without a usable `site` entry both menu-selection branches throw at
the `SITE_DATA.site.navigation` dereference. -/
theorem selectMenu_error_of_no_site (store : Store) (fn : String)
    (hs : store.lookup "site" = none) : selectMenu fn store = .error () := by
  unfold selectMenu
  have hsite : storeGet store "site" = .undef := by simp [storeGet, hs]
  rw [hsite]
  by_cases h : mainPages.contains fn = true
  · rw [if_pos h]
    rfl
  · rw [if_neg h]
    rfl

/-- A successful outcome's stored value round-trips. -/
theorem outcomeValue_getD (o : FetchOutcome) (ho : fetchOk o = true) :
    some ((outcomeValue o).getD .undef) = outcomeValue o := by
  cases o <;> simp [fetchOk, outcomeValue] at *

/-- On the all-success path the store is the full canonical map. -/
theorem loadedStore_allOk (out : String → FetchOutcome) (written : String → Bool)
    (h : allOk out = true) :
    (loadAllData out written).store =
      JSON_FILES.map fun f => (baseName f, (outcomeValue (out f)).getD .undef) := by
  have hall : ∀ f ∈ JSON_FILES, fetchOk (out f) = true := by
    intro f hf
    exact List.all_eq_true.mp h f hf
  unfold loadAllData loadedStore
  simp only []
  congr 1
  apply List.filter_eq_self.mpr
  intro f hf
  simp [h, hall f hf]

/-- C2: after `loadAllData` completes with all 16 fetches succeeding and
parsing, `SITE_DATA` contains exactly one entry per `JSON_FILES` name,
keyed by the name with `.json` stripped, holding that file's parsed value,
and nothing else. -/
theorem loadAllData_success_store (out : String → FetchOutcome) (written : String → Bool)
    (h : allOk out = true) :
    (loadAllData out written).store.map Prod.fst =
      [ "personal_info", "site", "key_metrics", "education", "professional_experience"
      , "expertise_achievements", "skills", "honors_awards", "courses_trainings_certificates"
      , "projects", "memberships", "sessions_events", "languages", "portfolios"
      , "volunteerings", "publications" ]
    ∧ ∀ f ∈ JSON_FILES,
        (loadAllData out written).store.lookup (baseName f) = outcomeValue (out f) := by
  have hall : ∀ f ∈ JSON_FILES, fetchOk (out f) = true := by
    intro f hf
    exact List.all_eq_true.mp h f hf
  have hstore := loadedStore_allOk out written h
  constructor
  · rw [hstore]
    rfl
  · intro f hf
    rw [hstore]
    fin_cases hf <;>
      simpa [JSON_FILES, baseName, replaceFirst, List.lookup] using
        outcomeValue_getD _ (hall _ (by simp [JSON_FILES]))

/-- Witness for C2 at a concrete all-success environment. -/
theorem loadAllData_success_store_witness :
    allOk (fun _ => .ok .null) = true
    ∧ ((loadAllData (fun _ => .ok .null) (fun _ => false)).store.lookup "site" =
        outcomeValue ((fun _ => FetchOutcome.ok .null) "site.json")) := by
  refine ⟨rfl, ?_⟩
  have h := (loadAllData_success_store (fun _ => .ok .null) (fun _ => false) rfl).2
      "site.json" (by simp [JSON_FILES])
  simpa [baseName, replaceFirst] using h

/-- C5 (code bug): on the failure path the store retains the entries of
the resources whose own fetches succeeded.  With `personal_info.json`
failing and everything else succeeding, the error notice is shown and yet
the store still holds `site` (and 14 other entries). -/
theorem loadAllData_partial_failure_retains :
    (loadAllData exOutcome (fun _ => true)).bodyReplaced = true
    ∧ (loadAllData exOutcome (fun _ => true)).store.lookup "site" = some exSite
    ∧ (loadAllData exOutcome (fun _ => true)).store.length = 15 :=
  ⟨rfl, rfl, rfl⟩

/-- C10 (implicit behaviour): the dispatcher's gate is
`Object.keys(SITE_DATA).length > 0` — the render sequence is entered
whenever the store has at least one entry, not only when all 16 are
present; and since both menu branches dereference
`SITE_DATA.site.navigation` unconditionally, any non-empty store without a
`site` entry makes `initializeSite` throw a TypeError: no render call
executes, no hook runs, and the dispatcher shows no error notice. -/
theorem dispatch_gate_missing_site :
    (∀ (store : Store) (path : String) (hooks : HookEnv) (year : Int) (d : Dom),
        store ≠ [] → (dispatch store path hooks year d).ran = true)
    ∧ (∀ (store : Store) (path : String) (hooks : HookEnv) (year : Int) (d : Dom),
        store ≠ [] → store.lookup "site" = none →
          (dispatch store path hooks year d).threw = true
          ∧ (dispatch store path hooks year d).trace = []
          ∧ (dispatch store path hooks year d).hookCalls = []
          ∧ (dispatch store path hooks year d).noticeShown = false) := by
  constructor
  · intro store path hooks year d hne
    have hlen : store.length > 0 := List.length_pos.mpr hne
    unfold dispatch
    rw [if_pos hlen]
    dsimp only
    split
    · rfl
    · split <;> rfl
  · intro store path hooks year d hne hsnone
    have hlen : store.length > 0 := List.length_pos.mpr hne
    have hse := selectMenu_error_of_no_site store (lastSegment path) hsnone
    unfold dispatch
    rw [if_pos hlen]
    dsimp only
    rw [hse]
    exact ⟨rfl, rfl, rfl, rfl⟩

/-- Witness for C10: a one-entry store without `site`. -/
theorem dispatch_gate_missing_site_witness :
    (dispatch [("personal_info", .obj [])] "index.html" ⟨true, true, true⟩ 2025 domAll).ran = true
    ∧ (dispatch [("personal_info", .obj [])] "index.html" ⟨true, true, true⟩ 2025 domAll).threw = true
    ∧ (dispatch [("personal_info", .obj [])] "index.html" ⟨true, true, true⟩ 2025 domAll).trace = [] := by
  refine ⟨?_, ?_, ?_⟩
  · exact dispatch_gate_missing_site.1 [("personal_info", .obj [])] "index.html"
      ⟨true, true, true⟩ 2025 domAll (by simp)
  · exact (dispatch_gate_missing_site.2 [("personal_info", .obj [])] "index.html"
      ⟨true, true, true⟩ 2025 domAll (by simp) rfl).1
  · exact (dispatch_gate_missing_site.2 [("personal_info", .obj [])] "index.html"
      ⟨true, true, true⟩ 2025 domAll (by simp) rfl).2.1

/-- C1 (code bug): with `personal_info.json` failing and the other 15
resources (including `site.json`) succeeding, `loadAllData` replaces the
page with the error notice — and `initializeSite` then still runs the
render sequence over the partially filled store, invoking `renderHeader`
and the rest, because `Object.keys(SITE_DATA).length > 0` holds. -/
theorem initSite_partial_failure_still_renders :
    (initSite exOutcome (fun _ => true) "" ⟨true, true, true⟩ 2025 domAll).bodyNotice = true
    ∧ (initSite exOutcome (fun _ => true) "" ⟨true, true, true⟩ 2025 domAll).disp.ran = true
    ∧ (initSite exOutcome (fun _ => true) "" ⟨true, true, true⟩ 2025 domAll).disp.trace =
        [ .updateDocumentMetadata, .renderHeader, .renderMenuFooter, .renderPageFooter
        , .renderNavigation, .renderNavDropdowns
        , .renderHero, .renderAbout, .renderKeyMetrics, .renderEducations
        , .renderProfessionalExperiences, .renderExpertiseAndAchievements, .renderSkillsTools
        , .renderHonorsAwards, .renderCoursesTrainingsCertificates, .renderProjects
        , .renderMemberships, .renderSessionsEvents, .renderLanguages, .renderPortfolios
        , .renderVolunteerings, .renderPublications ]
    ∧ RenderCall.renderHeader ∈
        (initSite exOutcome (fun _ => true) "" ⟨true, true, true⟩ 2025 domAll).disp.trace := by
  refine ⟨rfl, rfl, rfl, ?_⟩
  rw [show (initSite exOutcome (fun _ => true) "" ⟨true, true, true⟩ 2025 domAll).disp.trace =
      [ RenderCall.updateDocumentMetadata, .renderHeader, .renderMenuFooter, .renderPageFooter
      , .renderNavigation, .renderNavDropdowns
      , .renderHero, .renderAbout, .renderKeyMetrics, .renderEducations
      , .renderProfessionalExperiences, .renderExpertiseAndAchievements, .renderSkillsTools
      , .renderHonorsAwards, .renderCoursesTrainingsCertificates, .renderProjects
      , .renderMemberships, .renderSessionsEvents, .renderLanguages, .renderPortfolios
      , .renderVolunteerings, .renderPublications ] from rfl]
  simp

/-- C8: re-running the dispatcher's render phase against the unchanged
Loaded Store and the DOM the first run produced yields the identical DOM
content (and the same trace and error outcome) — for every store, page
file name, selected menu, year and starting DOM. -/
theorem renderPhase_idempotent (store : Store) (fileName : String) (menu : JValue)
    (year : Int) (d : Dom) :
    runCalls (dispatchProgs store fileName menu year)
        (runCalls (dispatchProgs store fileName menu year) d).dom
      = runCalls (dispatchProgs store fileName menu year) d :=
  runCalls_idem (dispatchProgs store fileName menu year) d

/-- Looking a key up after the replacing map of `setField`. -/
theorem fieldLookup_map_replace (k : String) (x : JValue) (fields : List (String × JValue)) :
    fieldLookup k (fields.map fun kv => if kv.1 = k then (k, x) else kv) =
      if (fieldLookup k fields).isSome then some x else none := by
  induction fields with
  | nil => simp [fieldLookup]
  | cons kv rest ih =>
      obtain ⟨k2, v⟩ := kv
      by_cases h : k2 = k
      · subst h
        simp only [List.map]
        simp only [if_true]
        rw [show fieldLookup k2 ((k2, x) :: List.map (fun kv => if kv.1 = k2 then (k2, x) else kv) rest) = some x
              from by simp [fieldLookup]]
        rw [show fieldLookup k2 ((k2, v) :: rest) = some v from by simp [fieldLookup]]
        simp
      · simp only [List.map]
        rw [show (if ((k2, v)).1 = k then (k, x) else (k2, v)) = (k2, v) from if_neg h]
        rw [show fieldLookup k ((k2, v) :: List.map (fun kv => if kv.1 = k then (k, x) else kv) rest) =
              fieldLookup k (List.map (fun kv => if kv.1 = k then (k, x) else kv) rest)
              from by simp [fieldLookup, h]]
        rw [show fieldLookup k ((k2, v) :: rest) = fieldLookup k rest from by simp [fieldLookup, h]]
        exact ih

/-- Looking a key up after `setField` appended it. -/
theorem fieldLookup_append_missing (k : String) (x : JValue) (fields : List (String × JValue))
    (h : fieldLookup k fields = none) :
    fieldLookup k (fields ++ [(k, x)]) = some x := by
  induction fields with
  | nil => simp [fieldLookup]
  | cons kv rest ih =>
      obtain ⟨k2, v⟩ := kv
      by_cases h2 : k2 = k
      · rw [show fieldLookup k ((k2, v) :: rest) = some v from by simp [fieldLookup, h2]] at h
        exact absurd h (by simp)
      · have h3 : fieldLookup k rest = none := by
          rw [show fieldLookup k ((k2, v) :: rest) = fieldLookup k rest from by
            simp [fieldLookup, h2]] at h
          exact h
        simpa [fieldLookup, h2] using ih h3

/-- Reading back the field `setField` wrote on an object. -/
theorem getField_setField (fields : List (String × JValue)) (k : String) (x : JValue) :
    getField (setField (.obj fields) k x) k = x := by
  show getField (.obj (if (fieldLookup k fields).isSome
      then fields.map fun kv => if kv.1 = k then (k, x) else kv
      else fields ++ [(k, x)])) k = x
  by_cases h : (fieldLookup k fields).isSome
  · rw [if_pos h]
    simp only [getField, jsGetE]
    rw [fieldLookup_map_replace, if_pos h]
    rfl
  · rw [if_neg h]
    have hn : fieldLookup k fields = none := by
      cases hf : fieldLookup k fields
      · rfl
      · rw [hf] at h; simp at h
    simp only [getField, jsGetE]
    rw [fieldLookup_append_missing k x fields hn]
    rfl

/-- The entry `findHomeIdx` locates is an object (its `label` is a string
that `startsWith` accepted). -/
theorem findHomeIdx_obj (items : List JValue) :
    ∀ i, findHomeIdx items = .ok (some i) → ∃ fields, items.getD i .undef = .obj fields := by
  induction items with
  | nil => intro i h; simp [findHomeIdx] at h
  | cons item rest ih =>
      intro i h
      unfold findHomeIdx at h
      cases hl : jsGetE item "label" with
      | error e => rw [hl] at h; simp [Bind.bind, Except.bind] at h
      | ok lbl =>
          rw [hl] at h
          simp only [Bind.bind, Except.bind] at h
          cases hs : jsStartsWith lbl "Home" with
          | error e => rw [hs] at h; simp at h
          | ok b =>
              rw [hs] at h
              cases b with
              | true =>
                  simp [pure, Except.pure] at h
                  subst h
                  have hstr : ∃ s, lbl = .str s := by
                    cases lbl <;> simp [jsStartsWith] at hs ⊢
                  obtain ⟨s, rfl⟩ := hstr
                  cases item with
                  | obj fields => exact ⟨fields, rfl⟩
                  | undef => simp [jsGetE] at hl
                  | null => simp [jsGetE] at hl
                  | bool b2 => simp [jsGetE] at hl
                  | num n => simp [jsGetE] at hl
                  | str s2 => simp [jsGetE] at hl
                  | arr xs => simp [jsGetE] at hl
              | false =>
                  simp only [Bool.false_eq_true, if_false] at h
                  cases hr : findHomeIdx rest with
                  | error e => rw [hr] at h; simp at h
                  | ok r =>
                      rw [hr] at h
                      simp only [Except.bind] at h
                      cases r with
                      | none => simp [pure, Except.pure] at h
                      | some j =>
                          simp [pure, Except.pure] at h
                          subst h
                          obtain ⟨fields, hf⟩ := ih j hr
                          exact ⟨fields, by simpa using hf⟩

/-- Menu selection on a non-main page yields the shared details menu and
leaves the store untouched. -/
theorem selectMenu_nonMain (store : Store) (fn : String) (nav dm : JValue)
    (hc : mainPages.contains fn = false)
    (hnav : jsGetE (storeGet store "site") "navigation" = .ok nav)
    (hdm : jsGetE nav "details_menu" = .ok dm) :
    selectMenu fn store = .ok (store, dm) := by
  unfold selectMenu
  rw [if_neg (by rw [hc]; exact Bool.false_ne_true)]
  rw [show (jsGetE (storeGet store "site") "navigation" >>= fun nav =>
        jsGetE nav "details_menu" >>= fun dm => pure (store, dm) :
        Except Unit (Store × JValue)) =
      Except.ok (store, dm) from by rw [hnav]; simp [Bind.bind, Except.bind, hdm, pure, Except.pure]]

/-- Menu selection on `index.html` or `''` yields the shared main menu and
leaves the store untouched. -/
theorem selectMenu_main_nonCv (store : Store) (fn : String) (nav mm : JValue)
    (hc : mainPages.contains fn = true) (hfn : fn ≠ "printable_cv.html")
    (hnav : jsGetE (storeGet store "site") "navigation" = .ok nav)
    (hmm : jsGetE nav "main_menu" = .ok mm) :
    selectMenu fn store = .ok (store, mm) := by
  unfold selectMenu
  rw [if_pos hc]
  rw [hnav]
  simp [Bind.bind, Except.bind, hmm, hfn, pure, Except.pure]

/-- The rewritten main-menu entry list of the CV page. -/
def cvRewrittenItems (items : List JValue) (i : Nat) : List JValue :=
  items.set i (setField (items.getD i .undef) "url" (.str "./index.html#about"))

/-- Menu selection on the printable-CV page with a `Home` entry rewrites
that entry's `url` (through the alias, mutating the store). -/
theorem selectMenu_cv_rewrite (store : Store) (nav : JValue) (items : List JValue) (i : Nat)
    (hnav : jsGetE (storeGet store "site") "navigation" = .ok nav)
    (hmm : jsGetE nav "main_menu" = .ok (.arr items))
    (hidx : findHomeIdx items = .ok (some i)) :
    selectMenu "printable_cv.html" store =
      .ok ( storeSet store "site"
              (setField (storeGet store "site") "navigation"
                (setField nav "main_menu" (.arr (cvRewrittenItems items i))))
          , .arr (cvRewrittenItems items i) ) := by
  unfold selectMenu
  rw [if_pos (by decide)]
  rw [hnav]
  simp only [Bind.bind, Except.bind, hmm]
  rw [show jsElems (JValue.arr items) = .ok items from rfl]
  simp only [hidx, cvRewrittenItems]
  rfl

/-- C9 counterexample: with `initAOS` absent (and the other two hooks
present) nothing is logged about the missing hook — refuting "a missing
hook is logged" for each of the three hooks. -/
theorem hook_missing_aos_unlogged :
    (HookEnv.mk true false true).aos = false
    ∧ hookMissingLogged ⟨true, false, true⟩ .aos = false
    ∧ hookInvocations ⟨true, false, true⟩ = [.typed, .pureCounter] :=
  ⟨rfl, rfl, rfl⟩

/-- C9 (amended): each hook is invoked iff it is present as a function;
a missing `initTypedAnimation` is logged (not an error), while missing
`initAOS`/`initPureCounter` are silently skipped; and the dispatcher
issues exactly those invocations when the render phase finishes without a
TypeError. -/
theorem hook_protocol :
    (∀ h : HookEnv,
      (Hook.typed ∈ hookInvocations h ↔ h.typed = true)
      ∧ (Hook.aos ∈ hookInvocations h ↔ h.aos = true)
      ∧ (Hook.pureCounter ∈ hookInvocations h ↔ h.pureCounter = true)
      ∧ hookMissingLogged h .typed = !h.typed
      ∧ hookMissingLogged h .aos = false
      ∧ hookMissingLogged h .pureCounter = false)
    ∧ (∀ store path h year d, (dispatch store path h year d).threw = false →
        (dispatch store path h year d).ran = true →
        (dispatch store path h year d).hookCalls = hookInvocations h) := by
  constructor
  · rintro ⟨t, a, p⟩
    cases t <;> cases a <;> cases p <;> refine ⟨by decide, by decide, by decide, rfl, rfl, rfl⟩
  · intro store path h year d hthrew hran
    by_cases hlen : store.length > 0
    · cases hsel : selectMenu (lastSegment path) store with
      | error e =>
          exfalso
          have hcontra : (dispatch store path h year d).threw = true := by
            unfold dispatch
            rw [if_pos hlen]
            dsimp only
            rw [hsel]
          rw [hthrew] at hcontra
          exact absurd hcontra (by decide)
      | ok sm =>
          by_cases hpo : (runCalls (dispatchProgs sm.1 (lastSegment path) sm.2 year) d).threw = true
          · exfalso
            have hcontra : (dispatch store path h year d).threw = true := by
              unfold dispatch
              rw [if_pos hlen]
              dsimp only
              rw [hsel]
              dsimp only
              rw [if_pos hpo]
            rw [hthrew] at hcontra
            exact absurd hcontra (by decide)
          · unfold dispatch
            rw [if_pos hlen]
            dsimp only
            rw [hsel]
            dsimp only
            rw [if_neg hpo]
    · exfalso
      have hcontra : (dispatch store path h year d).ran = false := by
        unfold dispatch
        rw [if_neg hlen]
      rw [hran] at hcontra
      exact absurd hcontra (by decide)

/-- C9 witness: a concrete dispatch (the partially loaded store of the
`exOutcome` page load, default page, all three hooks present) finishes
without a TypeError and issues exactly the three hook invocations. -/
theorem hook_protocol_witness :
    (dispatch (loadedStore exOutcome (fun _ => true)) "" ⟨true, true, true⟩ 2025 domAll).hookCalls
      = hookInvocations ⟨true, true, true⟩ :=
  hook_protocol.2 (loadedStore exOutcome (fun _ => true)) "" ⟨true, true, true⟩ 2025 domAll rfl rfl

/-- The eleven file names the dispatcher's if/else chain recognizes; every
other final path segment falls through to the default/index branch. -/
def routedNames : List String :=
  [ "printable_cv.html"
  , "skillsAndTools-details.html", "honorsAndAwards-details.html"
  , "coursesTrainingsAndCertificates-details.html", "projects-details.html"
  , "memberships-details.html", "sessionsAndEvents-details.html"
  , "languages-details.html", "portfolios-details.html"
  , "volunteerings-details.html", "publications-details.html" ]

/-- The one detail-render call of each detail page. -/
def detailRender : DetailPage → RenderCall
  | .skillsTools => .renderSkillsToolsDetails
  | .honorsAwards => .renderHonorsAwardsDetails
  | .courses => .renderCoursesTrainingsCertificatesDetails
  | .projects => .renderProjectsDetails
  | .memberships => .renderMembershipsDetails
  | .sessionsEvents => .renderSessionsEventsDetails
  | .languages => .renderLanguagesDetails
  | .portfolios => .renderPortfoliosDetails
  | .volunteerings => .renderVolunteeringsDetails
  | .publications => .renderPublicationsDetails

/-- C3: page-variant classification is the pure function `classify` of the
final path segment: `printable_cv.html` selects the CV variant, each of the
ten fixed `-details.html` names selects its detail variant — whose render
list is exactly its one detail-render call (empty for the publications
detail page when its data is falsy, per the line-3908 guard) — `''` and
`index.html` select the default variant, and every name outside the routed
table falls back to the default variant. -/
theorem classification :
    classify "printable_cv.html" = .cv
    ∧ (classify "skillsAndTools-details.html" = .details .skillsTools
       ∧ classify "honorsAndAwards-details.html" = .details .honorsAwards
       ∧ classify "coursesTrainingsAndCertificates-details.html" = .details .courses
       ∧ classify "projects-details.html" = .details .projects
       ∧ classify "memberships-details.html" = .details .memberships
       ∧ classify "sessionsAndEvents-details.html" = .details .sessionsEvents
       ∧ classify "languages-details.html" = .details .languages
       ∧ classify "portfolios-details.html" = .details .portfolios
       ∧ classify "volunteerings-details.html" = .details .volunteerings
       ∧ classify "publications-details.html" = .details .publications)
    ∧ (classify "" = .index ∧ classify "index.html" = .index)
    ∧ (∀ s, s ∉ routedNames → classify s = .index)
    ∧ (∀ st : Store, ∀ dp : DetailPage,
        (variantCallProgs st (.details dp)).map Prod.fst = [detailRender dp]
        ∨ (dp = .publications ∧ truthy (storeGet st "publications") = false
           ∧ variantCallProgs st (.details dp) = [])) := by
  refine ⟨rfl, ⟨rfl, rfl, rfl, rfl, rfl, rfl, rfl, rfl, rfl, rfl⟩, ⟨rfl, rfl⟩, ?_, ?_⟩
  · intro s hs
    simp only [routedNames, List.mem_cons, List.not_mem_nil, or_false, not_or] at hs
    obtain ⟨h1, h2, h3, h4, h5, h6, h7, h8, h9, h10, h11⟩ := hs
    simp [classify, h1, h2, h3, h4, h5, h6, h7, h8, h9, h10, h11]
  · intro st dp
    cases dp with
    | publications =>
        by_cases ht : truthy (storeGet st "publications") = true
        · left
          simp [variantCallProgs, ht, detailRender]
        · right
          exact ⟨rfl, by simpa using ht, by simp [variantCallProgs, ht]⟩
    | skillsTools => left; rfl
    | honorsAwards => left; rfl
    | courses => left; rfl
    | projects => left; rfl
    | memberships => left; rfl
    | sessionsEvents => left; rfl
    | languages => left; rfl
    | portfolios => left; rfl
    | volunteerings => left; rfl

/-- C3 witness: an unrecognized file name falls back to the default/index
variant. -/
theorem classification_witness : classify "about.html" = .index :=
  classification.2.2.2.1 "about.html" (by decide)

/-- `i` found by `findHomeIdx` is in bounds. -/
theorem findHomeIdx_lt (items : List JValue) :
    ∀ i, findHomeIdx items = .ok (some i) → i < items.length := by
  induction items with
  | nil => intro i h; simp [findHomeIdx] at h
  | cons item rest ih =>
      intro i h
      unfold findHomeIdx at h
      cases hl : jsGetE item "label" with
      | error e => rw [hl] at h; simp [Bind.bind, Except.bind] at h
      | ok lbl =>
          rw [hl] at h
          simp only [Bind.bind, Except.bind] at h
          cases hs : jsStartsWith lbl "Home" with
          | error e => rw [hs] at h; simp at h
          | ok b =>
              rw [hs] at h
              cases b with
              | true =>
                  simp [pure, Except.pure] at h
                  subst h
                  simp
              | false =>
                  simp only [Bool.false_eq_true, if_false] at h
                  cases hr : findHomeIdx rest with
                  | error e => rw [hr] at h; simp at h
                  | ok r =>
                      rw [hr] at h
                      simp only [Except.bind] at h
                      cases r with
                      | none => simp [pure, Except.pure] at h
                      | some j =>
                          simp [pure, Except.pure] at h
                          subst h
                          have := ih j hr
                          simp only [List.length_cons]
                          omega

/-- `List.getD` at the index just written by `List.set`. -/
theorem getD_set_self (l : List JValue) (i : Nat) (a : JValue) (h : i < l.length) :
    (l.set i a).getD i .undef = a := by
  induction l generalizing i with
  | nil => simp at h
  | cons x xs ih =>
      cases i with
      | zero => rfl
      | succ j =>
          simp only [List.set, List.getD_cons_succ]
          exact ih j (by simpa using h)

/-- Menu selection on a page other than the printable CV returns the store
unchanged. -/
theorem selectMenu_store_inv (fn : String) (store : Store) (sm : Store × JValue)
    (hfn : fn ≠ "printable_cv.html") (h : selectMenu fn store = .ok sm) : sm.1 = store := by
  unfold selectMenu at h
  by_cases hm : mainPages.contains fn = true
  · rw [if_pos hm] at h
    cases hnav : jsGetE (storeGet store "site") "navigation" with
    | error e => rw [hnav] at h; simp [Bind.bind, Except.bind] at h
    | ok nav =>
        rw [hnav] at h
        simp only [Bind.bind, Except.bind] at h
        cases hmm : jsGetE nav "main_menu" with
        | error e => rw [hmm] at h; simp at h
        | ok mm =>
            rw [hmm] at h
            simp only at h
            rw [if_neg hfn] at h
            simp only [pure, Except.pure, Except.ok.injEq] at h
            rw [← h]
  · rw [if_neg hm] at h
    cases hnav : jsGetE (storeGet store "site") "navigation" with
    | error e => rw [hnav] at h; simp [Bind.bind, Except.bind] at h
    | ok nav =>
        rw [hnav] at h
        simp only [Bind.bind, Except.bind] at h
        cases hdm : jsGetE nav "details_menu" with
        | error e => rw [hdm] at h; simp at h
        | ok dm =>
            rw [hdm] at h
            simp only at h
            simp only [pure, Except.pure, Except.ok.injEq] at h
            rw [← h]

/-- C7: menu-selection policy — the index (and every `mainPages`) variant
other than the CV gets the shared `main_menu`, every other page gets the
shared `details_menu`, and on the printable-CV page the entry found by the
`Home` label search has its `url` rewritten to `./index.html#about`,
whatever its original value was. -/
theorem menu_selection_policy :
    (∀ (store : Store) (fn : String) (nav mm : JValue),
      mainPages.contains fn = true → fn ≠ "printable_cv.html" →
      jsGetE (storeGet store "site") "navigation" = .ok nav →
      jsGetE nav "main_menu" = .ok mm →
      selectMenu fn store = .ok (store, mm))
    ∧ (∀ (store : Store) (fn : String) (nav dm : JValue),
        mainPages.contains fn = false →
        jsGetE (storeGet store "site") "navigation" = .ok nav →
        jsGetE nav "details_menu" = .ok dm →
        selectMenu fn store = .ok (store, dm))
    ∧ (∀ (store : Store) (nav : JValue) (items : List JValue) (i : Nat),
        jsGetE (storeGet store "site") "navigation" = .ok nav →
        jsGetE nav "main_menu" = .ok (.arr items) →
        findHomeIdx items = .ok (some i) →
        selectMenu "printable_cv.html" store =
          .ok ( storeSet store "site"
                  (setField (storeGet store "site") "navigation"
                    (setField nav "main_menu" (.arr (cvRewrittenItems items i))))
              , .arr (cvRewrittenItems items i) )
          ∧ getField ((cvRewrittenItems items i).getD i .undef) "url"
              = .str "./index.html#about") := by
  refine ⟨selectMenu_main_nonCv, selectMenu_nonMain, ?_⟩
  intro store nav items i hnav hmm hidx
  refine ⟨selectMenu_cv_rewrite store nav items i hnav hmm hidx, ?_⟩
  unfold cvRewrittenItems
  rw [getD_set_self _ _ _ (findHomeIdx_lt items i hidx)]
  obtain ⟨fields, hf⟩ := findHomeIdx_obj items i hidx
  rw [hf]
  exact getField_setField fields "url" _

/-- C7 witness: on the concrete one-entry store, `index.html` selection
returns the untouched main menu, and CV selection rewrites the `Home`
entry's `#hero` url to `./index.html#about`. -/
theorem menu_selection_policy_witness :
    selectMenu "index.html" exStoreCv =
      .ok (exStoreCv, .arr [.obj [("label", .str "Home"), ("url", .str "#hero")]])
    ∧ selectMenu "languages-details.html" exStoreCv = .ok (exStoreCv, .arr [])
    ∧ (selectMenu "printable_cv.html" exStoreCv =
        .ok ( storeSet exStoreCv "site"
                (setField (storeGet exStoreCv "site") "navigation"
                  (setField
                    (.obj [ ("main_menu", .arr [.obj [("label", .str "Home"), ("url", .str "#hero")]])
                          , ("details_menu", .arr []) ])
                    "main_menu"
                    (.arr (cvRewrittenItems [.obj [("label", .str "Home"), ("url", .str "#hero")]] 0))))
            , .arr (cvRewrittenItems [.obj [("label", .str "Home"), ("url", .str "#hero")]] 0) )
       ∧ getField ((cvRewrittenItems [.obj [("label", .str "Home"), ("url", .str "#hero")]] 0).getD 0 .undef) "url"
           = .str "./index.html#about") :=
  ⟨ menu_selection_policy.1 exStoreCv "index.html"
      (.obj [ ("main_menu", .arr [.obj [("label", .str "Home"), ("url", .str "#hero")]])
            , ("details_menu", .arr []) ])
      (.arr [.obj [("label", .str "Home"), ("url", .str "#hero")]]) rfl (by decide) rfl rfl
  , menu_selection_policy.2.1 exStoreCv "languages-details.html"
      (.obj [ ("main_menu", .arr [.obj [("label", .str "Home"), ("url", .str "#hero")]])
            , ("details_menu", .arr []) ])
      (.arr []) (by decide) rfl rfl
  , menu_selection_policy.2.2 exStoreCv
      (.obj [ ("main_menu", .arr [.obj [("label", .str "Home"), ("url", .str "#hero")]])
            , ("details_menu", .arr []) ])
      [.obj [("label", .str "Home"), ("url", .str "#hero")]] 0 rfl rfl rfl ⟩

/-- C4 counterexample: dispatching the printable-CV page rewrites the
`Home` entry's `url` through the `homeItem` alias into `SITE_DATA` — the
Loaded Store after dispatch differs from the store the Fetcher produced
(`#hero` became `./index.html#about`). -/
theorem dispatch_cv_mutates_store :
    firstMainMenuUrlStr exStoreCv = "#hero"
    ∧ firstMainMenuUrlStr
        (dispatch exStoreCv "printable_cv.html" ⟨true, true, true⟩ 2025 domAll).store
        = "./index.html#about"
    ∧ (dispatch exStoreCv "printable_cv.html" ⟨true, true, true⟩ 2025 domAll).store
        ≠ exStoreCv :=
  ⟨rfl, rfl, fun h => absurd (congrArg firstMainMenuUrlStr h) (by decide)⟩

/-- C4 (amended): the dispatcher leaves the Loaded Store unchanged on every
page whose final path segment is not `printable_cv.html`; on the
printable-CV page, menu selection rewrites the found `Home` entry's `url`
inside the store's `site.navigation.main_menu` (the one store mutation
after population). -/
theorem store_mutation_policy :
    (∀ (store : Store) (path : String) (hooks : HookEnv) (year : Int) (d : Dom),
      lastSegment path ≠ "printable_cv.html" →
      (dispatch store path hooks year d).store = store)
    ∧ (∀ (store : Store) (nav : JValue) (items : List JValue) (i : Nat),
        jsGetE (storeGet store "site") "navigation" = .ok nav →
        jsGetE nav "main_menu" = .ok (.arr items) →
        findHomeIdx items = .ok (some i) →
        selectMenu "printable_cv.html" store =
          .ok ( storeSet store "site"
                  (setField (storeGet store "site") "navigation"
                    (setField nav "main_menu" (.arr (cvRewrittenItems items i))))
              , .arr (cvRewrittenItems items i) )) := by
  constructor
  · intro store path hooks year d hfn
    by_cases hlen : store.length > 0
    · cases hsel : selectMenu (lastSegment path) store with
      | error e =>
          unfold dispatch
          rw [if_pos hlen]
          dsimp only
          rw [hsel]
      | ok sm =>
          have hinv : sm.1 = store := selectMenu_store_inv _ _ _ hfn hsel
          by_cases hpo : (runCalls (dispatchProgs sm.1 (lastSegment path) sm.2 year) d).threw = true
          · unfold dispatch
            rw [if_pos hlen]
            dsimp only
            rw [hsel]
            dsimp only
            rw [if_pos hpo]
            exact hinv
          · unfold dispatch
            rw [if_pos hlen]
            dsimp only
            rw [hsel]
            dsimp only
            rw [if_neg hpo]
            exact hinv
    · unfold dispatch
      rw [if_neg hlen]
  · exact selectMenu_cv_rewrite

/-- C4 witness: dispatching `index.html` over the concrete store leaves the
store exactly as the Fetcher produced it. -/
theorem store_mutation_policy_witness :
    (dispatch exStoreCv "index.html" ⟨true, true, true⟩ 2025 domAll).store = exStoreCv :=
  store_mutation_policy.1 exStoreCv "index.html" ⟨true, true, true⟩ 2025 domAll (by decide)

/-- C6 counterexample: three section renderers throw a TypeError on a
malformed data shape the claim says they must survive — `renderHeader`
with truthy `siteData` lacking `assets` (line 102 `siteData.assets.images`),
`renderHero` when `#hero` has no `<h2>` (line 226, unchecked query), and
`renderAbout` with a truthy `profile_summary` lacking the
`key_points_left` array (line 289 `.map` on undefined). -/
theorem render_guard_counterexample :
    (runP (renderHeader (.obj [("name", .str "E")]) (.obj [])) domAll).2 = true
    ∧ (runP (renderHero (.obj [("hero", .obj [("title_main", .str "T")])])) domNoHeroH2).2 = true
    ∧ (runP (renderAbout
        [("site", .obj [("assets", .obj [("images", .obj [("profile_image_formal", .str "x")])])])]
        (.obj [("profile_summary", .obj [("title", .str "About")])])) domAll).2 = true :=
  ⟨rfl, rfl, rfl⟩

/-- C6 (amended): the renderers no-op without a TypeError when their guard
actually fires — falsy data arguments for `renderHeader`/`renderAbout`, a
missing `#hero` section or `#about` section for
`renderHero`/`renderAbout` — but the three data shapes of the
counterexample (inside a present anchor, behind a truthy guard) raise a
TypeError instead of no-opping. -/
theorem render_guard_policy :
    (∀ (pi sd : JValue) (d : Dom), (truthy pi && truthy sd) = false →
      runP (renderHeader pi sd) d = (d, false))
    ∧ (∀ (pi : JValue) (d : Dom), pres d .heroSection = false →
        runP (renderHero pi) d = (d, false))
    ∧ (∀ (store : Store) (pi : JValue) (d : Dom), truthy pi = false →
        runP (renderAbout store pi) d = (d, false))
    ∧ (∀ (store : Store) (pi : JValue) (d : Dom), pres d .aboutSection = false →
        runP (renderAbout store pi) d = (d, false))
    ∧ (∀ (pi sd : JValue), truthy pi = true → truthy sd = true →
        jsGetE (getField sd "assets") "images" = .error () →
        ∀ d : Dom, (runP (renderHeader pi sd) d).2 = true) := by
  refine ⟨?_, ?_, ?_, ?_, ?_⟩
  · intro pi sd d h
    simp [renderHeader, h, runP]
  · intro pi d h
    simp only [pres] at h
    simp [renderHero, runP, h]
  · intro store pi d h
    simp [renderAbout, h, runP]
  · intro store pi d h
    simp only [pres] at h
    by_cases ht : truthy pi = true
    · simp [renderAbout, ht, runP, h]
    · simp [renderAbout, Bool.eq_false_iff.mpr ht, runP]
  · intro pi sd hpi hsd herr d
    unfold renderHeader
    rw [hpi, hsd]
    simp only [Bool.and_self, Bool.not_true, Bool.false_eq_true, if_false]
    rw [herr]
    simp [runP]

/-- C6 witness: `renderHeader` with a falsy `siteData` argument leaves the
DOM untouched and does not throw. -/
theorem render_guard_policy_witness :
    runP (renderHeader (.obj [("name", .str "E")]) .undef) domAll = (domAll, false) :=
  render_guard_policy.1 (.obj [("name", .str "E")]) .undef domAll rfl

end Testsite
